import Mathlib

/-!
Verification of the automation-session manager of the smrt-seller-app
repository (`src/src/electron/automationManager.ts` and the HTTP layer in
`src/src/electron/main.ts`).

The development contains two embeddings of the manager:

* Model A (`startAutomationA`, `runAutomationA`, ...) is a functional,
  per-call embedding: one invocation of `startAutomation` is run to its
  result, with the behaviour of the external browser/portal supplied by an
  environment (`AttemptEnv`).  It mirrors the call chain
  `startAutomation → createAutomation → runAutomation → handleCreateListing
  → handleLoginRequired → startReauthentication → retryPendingAutomations`.

* Model B (`stepB`, `ReachableB`) is a small-step transition system over the
  manager's shared state, whose events are the synchronous segments of the
  event-loop execution between `await` points.  It is used for the
  concurrency/temporal claims (single re-authentication cycle, pause/resume,
  terminal statuses, cancellation).

Machine integers do not occur on the modelled paths; ids are modelled as a
fresh-id counter standing for `uuidv4()` (collision-freedom).
-/

set_option linter.unusedVariables false
set_option linter.unnecessarySimpa false

namespace SmrtSellerSpec

/-- Session status, as the TypeScript union
`'running' | 'paused' | 'error' | 'completed'` of `AutomationStatus.status`. -/
inductive SessStatus where
  | running
  | paused
  | error
  | completed
  deriving DecidableEq, Repr

/-- The `params` object of an `AutomationRequest` (`sku`, `asin`, `price`,
`condition`, `conditionNotes`); every field is optional in the source.
`price` is a JS number used only for presence checks and form filling; it is
modelled as a `Nat` (its exact numeric value is irrelevant to the claims,
only JS truthiness, under which `0` counts as absent, matters). -/
structure Params where
  sku : Option String := none
  asin : Option String := none
  price : Option Nat := none
  condition : Option String := none
  conditionNotes : Option String := none
  deriving DecidableEq, Repr

/-- The `type` field of an `AutomationRequest`. -/
inductive ReqType where
  | inventory
  | orders
  | createListing
  deriving DecidableEq, Repr

/-- An `AutomationRequest` (`{ type, params? }`). -/
structure Request where
  type : ReqType
  params : Option Params := none
  deriving DecidableEq, Repr

/-- A terminal result, `RunningAutomation['result'] = { fnsku?, error? }`. -/
structure AResult where
  fnsku : Option String := none
  error : Option String := none
  deriving DecidableEq, Repr

/-- JS truthiness of an optional string: `undefined` and `''` are falsy. -/
def strFalsy : Option String → Bool
  | none => true
  | some s => s.isEmpty

/-- JS truthiness of an optional number: `undefined` and `0` are falsy. -/
def natFalsy : Option Nat → Bool
  | none => true
  | some n => n == 0

/-- The precondition check of `handleCreateListing`
(`!params?.asin || !params?.sku || !params?.price`, line 1369). -/
def missingListingParams : Option Params → Bool
  | none => true
  | some p => strFalsy p.asin || strFalsy p.sku || natFalsy p.price

/-! ### Association lists standing for the JS `Map`s

`runningAutomations` and `completedResults` are JS `Map`s: insertion-ordered,
`set` updates in place for an existing key and appends for a new one. -/

/-- Lookup in an insertion-ordered map (first matching key). -/
def lookupKV {α : Type} : List (Nat × α) → Nat → Option α
  | [], _ => none
  | (k, v) :: rest, i => if k = i then some v else lookupKV rest i

/-- `Map.set`: update in place when the key is present, append otherwise. -/
def setKV {α : Type} : List (Nat × α) → Nat → α → List (Nat × α)
  | [], k, v => [(k, v)]
  | (k2, v2) :: rest, k, v =>
      if k2 = k then (k, v) :: rest else (k2, v2) :: setKV rest k v

/-- `Map.delete` (keys are unique in a JS `Map`, so dropping every entry with
the key is the same operation). -/
def removeKV {α : Type} : List (Nat × α) → Nat → List (Nat × α)
  | [], _ => []
  | (k2, v2) :: rest, k =>
      if k2 = k then removeKV rest k else (k2, v2) :: removeKV rest k

/-- Map over the values of an insertion-ordered map, keeping keys. -/
def mapVals {α : Type} (g : Nat → α → α) (l : List (Nat × α)) : List (Nat × α) :=
  l.map (fun p => (p.1, g p.1 p.2))

/-! ### The completed-results cache cap -/

/-- `MAX_COMPLETED_RESULTS` (line 65). -/
def MAX_COMPLETED_RESULTS : Nat := 1000

/-- The filter of `cleanupCompletedResults` (lines 2014-2019): the counter is
incremented for every entry and an entry is kept only while the running count
is strictly below `MAX_COMPLETED_RESULTS`. -/
def keepCount {α : Type} : Nat → List α → List α
  | _, [] => []
  | c, x :: xs =>
      if c + 1 < MAX_COMPLETED_RESULTS then x :: keepCount (c + 1) xs
      else keepCount (c + 1) xs

/-- `cleanupCompletedResults` (lines 2006-2026): the map is converted to an
entry array, filtered by the running count, and rebuilt in order. -/
def cleanupCompletedResults {α : Type} (l : List (Nat × α)) : List (Nat × α) :=
  keepCount 0 l

/-! ### The FNSKU pattern `X0[A-Z0-9]{8}` (line 1534) -/

/-- A character of the class `[A-Z0-9]`. -/
def validFnskuChar (c : Char) : Bool :=
  ('A' ≤ c && c ≤ 'Z') || ('0' ≤ c && c ≤ '9')

/-- Match `X0[A-Z0-9]{8}` at the head of the character list. -/
def fnskuAt : List Char → Option (List Char)
  | 'X' :: '0' :: rest =>
      let tail8 := rest.take 8
      if tail8.length == 8 && tail8.all validFnskuChar then
        some ('X' :: '0' :: tail8)
      else none
  | _ => none

/-- Leftmost match of `X0[A-Z0-9]{8}`, scanning like a non-global JS regex. -/
def fnskuScan : List Char → Option (List Char)
  | [] => none
  | c :: rest =>
      match fnskuAt (c :: rest) with
      | some m => some m
      | none => fnskuScan rest

/-- `text.match(/X0[A-Z0-9]{8}/)?.[0]`: the leftmost matched substring. -/
def fnskuMatch (s : String) : Option String :=
  (fnskuScan s.data).map List.asString

/-! ### Lemmas about the map helpers -/

theorem lookupKV_setKV_self {α : Type} (l : List (Nat × α)) (k : Nat) (v : α) :
    lookupKV (setKV l k v) k = some v := by
  induction l with
  | nil => simp [setKV, lookupKV]
  | cons p rest ih =>
      obtain ⟨a, b⟩ := p
      by_cases ha : a = k
      · simp [setKV, lookupKV, ha]
      · simp [setKV, lookupKV, ha, ih]

theorem lookupKV_setKV_ne {α : Type} (l : List (Nat × α)) (k j : Nat) (v : α)
    (h : j ≠ k) : lookupKV (setKV l k v) j = lookupKV l j := by
  induction l with
  | nil => simp [setKV, lookupKV, Ne.symm h]
  | cons p rest ih =>
      obtain ⟨a, b⟩ := p
      by_cases ha : a = k
      · subst ha
        simp [setKV, lookupKV, Ne.symm h]
      · by_cases hj : a = j
        · simp [setKV, lookupKV, ha, hj, h]
        · simp [setKV, lookupKV, ha, hj, ih]

theorem lookupKV_removeKV_self {α : Type} (l : List (Nat × α)) (k : Nat) :
    lookupKV (removeKV l k) k = none := by
  induction l with
  | nil => simp [removeKV, lookupKV]
  | cons p rest ih =>
      obtain ⟨a, b⟩ := p
      by_cases ha : a = k
      · simp [removeKV, ha, ih]
      · simp [removeKV, lookupKV, ha, ih]

theorem lookupKV_removeKV_ne {α : Type} (l : List (Nat × α)) (k j : Nat)
    (h : j ≠ k) : lookupKV (removeKV l k) j = lookupKV l j := by
  induction l with
  | nil => simp [removeKV, lookupKV]
  | cons p rest ih =>
      obtain ⟨a, b⟩ := p
      by_cases ha : a = k
      · subst ha
        simp [removeKV, lookupKV, Ne.symm h, ih]
      · by_cases hj : a = j
        · simp [removeKV, lookupKV, ha, hj, h]
        · simp [removeKV, lookupKV, ha, hj, ih]

theorem lookupKV_mapVals {α : Type} (g : Nat → α → α) (l : List (Nat × α)) (i : Nat) :
    lookupKV (mapVals g l) i = (lookupKV l i).map (g i) := by
  induction l with
  | nil => simp [mapVals, lookupKV]
  | cons p rest ih =>
      obtain ⟨a, b⟩ := p
      by_cases ha : a = i
      · subst ha
        simp [mapVals, lookupKV]
      · simp only [mapVals, List.map_cons] at ih ⊢
        simp [lookupKV, ha, ih]

theorem lookupKV_take {α : Type} (l : List (Nat × α)) (n k : Nat) (v : α)
    (h : lookupKV (l.take n) k = some v) : lookupKV l k = some v := by
  induction l generalizing n with
  | nil => simpa using h
  | cons p rest ih =>
      obtain ⟨a, b⟩ := p
      cases n with
      | zero => simp [lookupKV] at h
      | succ m =>
          by_cases ha : a = k
          · simpa [lookupKV, ha] using h
          · simp only [List.take_succ_cons, lookupKV, if_neg ha] at h ⊢
            exact ih m h

theorem keepCount_nil_of_ge {α : Type} (c : Nat) (l : List α)
    (h : MAX_COMPLETED_RESULTS - 1 ≤ c) : keepCount c l = [] := by
  induction l generalizing c with
  | nil => rfl
  | cons x xs ih =>
      have : ¬ c + 1 < MAX_COMPLETED_RESULTS := by omega
      simp only [keepCount, if_neg this]
      exact ih (c + 1) (by omega)

theorem keepCount_eq_take {α : Type} (c : Nat) (l : List α) :
    keepCount c l = l.take (MAX_COMPLETED_RESULTS - 1 - c) := by
  induction l generalizing c with
  | nil => simp [keepCount]
  | cons x xs ih =>
      by_cases h : c + 1 < MAX_COMPLETED_RESULTS
      · have h2 : MAX_COMPLETED_RESULTS - 1 - c = (MAX_COMPLETED_RESULTS - 1 - (c + 1)) + 1 := by
          omega
        simp only [keepCount, if_pos h, h2, List.take_succ_cons]
        rw [ih]
      · have h2 : MAX_COMPLETED_RESULTS - 1 - c = 0 := by omega
        simp only [keepCount, if_neg h, h2, List.take_zero]
        exact keepCount_nil_of_ge (c + 1) xs (by omega)

theorem cleanupCompletedResults_eq_take {α : Type} (l : List (Nat × α)) :
    cleanupCompletedResults l = l.take (MAX_COMPLETED_RESULTS - 1) := by
  unfold cleanupCompletedResults
  exact keepCount_eq_take 0 l

theorem cleanupCompletedResults_length {α : Type} (l : List (Nat × α)) :
    (cleanupCompletedResults l).length ≤ MAX_COMPLETED_RESULTS - 1 := by
  rw [cleanupCompletedResults_eq_take]
  exact List.length_take_le (MAX_COMPLETED_RESULTS - 1) l

theorem lookupKV_cleanup {α : Type} (l : List (Nat × α)) (k : Nat) (v : α)
    (h : lookupKV (cleanupCompletedResults l) k = some v) : lookupKV l k = some v := by
  rw [cleanupCompletedResults_eq_take] at h
  exact lookupKV_take l _ k v h

theorem cleanup_of_short {α : Type} (l : List (Nat × α))
    (h : l.length ≤ MAX_COMPLETED_RESULTS - 1) : cleanupCompletedResults l = l := by
  rw [cleanupCompletedResults_eq_take]
  exact List.take_of_length_le h

theorem setKV_length {α : Type} (l : List (Nat × α)) (k : Nat) (v : α) :
    (setKV l k v).length ≤ l.length + 1 := by
  induction l with
  | nil => simp [setKV]
  | cons p rest ih =>
      obtain ⟨a, b⟩ := p
      by_cases ha : a = k
      · simp [setKV, ha]
      · simp only [setKV, if_neg ha, List.length_cons]
        omega

/-! ## Model A: functional embedding of one `startAutomation` call

The behaviour of the external world (the Playwright browser and the seller
portal) during one automation attempt is given by an `AttemptEnv`.  A nested
retry (after re-authentication) is a new attempt and reads the environment at
the next index; the recursion is bounded by explicit fuel, standing for the
5-minute polling timeout that bounds the real nesting. -/

/-- User response to the re-authentication modal (`reauth-response`). -/
inductive ModalResponse where
  | login
  | cancel
  deriving DecidableEq, Repr

/-- Environment of one automation attempt: outcome of each external
interaction of `createAutomation` / `handleCreateListing` /
`startReauthentication`.

* `launchError`: `firefox.launch` / executable check failure in
  `createAutomation` (thrown message);
* `loginWall`: the navigation landed on a login page (line 1400:
  URL contains `signin` or a password field is present);
* `modalResponse`: the user's choice in the re-authentication modal;
* `authError`: failure of `startReauthentication` (launch failure or the
  5-minute login wait timing out), when the user chose to log in;
* `preStepsError`: a form-fill/submit interaction before FNSKU extraction
  threw (lines 1449-1528);
* `fnskuText`: `textContent` of the `fnsku` element (`none` when the element
  yields no text);
* `postStepsError`: a prep/dimension/save interaction after FNSKU extraction
  threw (lines 1546-1894). -/
structure AttemptEnv where
  launchError : Option String := none
  loginWall : Bool := false
  modalResponse : ModalResponse := ModalResponse.login
  authError : Option String := none
  preStepsError : Option String := none
  fnskuText : Option String := none
  postStepsError : Option String := none
  deriving DecidableEq, Repr

/-- A `RunningAutomation` as far as it is observable: its status record and
optional result (browser and page handles carry no modelled state).
`details` is the `status.details` object, absent fields being `none`. -/
structure ASession where
  status : SessStatus
  message : Option String := none
  progress : Option Nat := none
  details : Params := {}
  result : Option AResult := none
  deriving DecidableEq, Repr

/-- The manager's shared mutable state, plus event counters
(`browsersLaunched`, `sessionsCreated`, `navigations`, `modalsOpened`,
`authBrowsersLaunched`) recording how many times each external action was
performed.  `nextId` is the fresh-id source standing for `uuidv4()`;
`pending` holds `(originalId?, request)` pairs as `PendingAutomation`
(`startTime`/`retryCount` carry no modelled behaviour). -/
structure AState where
  nextId : Nat := 0
  running : List (Nat × ASession) := []
  pending : List (Option Nat × Request) := []
  completedResults : List (Nat × AResult) := []
  isReauthenticating : Bool := false
  browsersLaunched : Nat := 0
  authBrowsersLaunched : Nat := 0
  sessionsCreated : Nat := 0
  navigations : Nat := 0
  modalsOpened : Nat := 0
  deriving DecidableEq, Repr

/-- The value `startAutomation` resolves with: a generated session id, or the
literal string `'pending-auth'` (line 1049). -/
inductive StartRet where
  | sessionId (id : Nat)
  | pendingAuth
  deriving DecidableEq, Repr

/-- Whether the `startAutomation` promise resolved or rejected. -/
inductive StartOutcome where
  | ok (ret : StartRet)
  | threw (msg : String)
  deriving DecidableEq, Repr

/-- `cleanupAutomation` (lines 406-461): store the session's result in the
completed-results cache when set and not already stored (no truncation here),
then remove the session from the live map.  Browser closing has no modelled
state. -/
def cleanupAutomationA (s : AState) (id : Nat) : AState :=
  match lookupKV s.running id with
  | none => s
  | some a =>
      let s1 :=
        match a.result with
        | some r =>
            if (lookupKV s.completedResults id).isNone then
              { s with completedResults := setKV s.completedResults id r }
            else s
        | none => s
      { s1 with running := removeKV s1.running id }

/-- `createAutomation` (lines 1107-1139): launch a browser and create the
session record, whose `details` initially carry only `sku` and `asin`. -/
def createAutomationA (env : Nat → AttemptEnv) (idx : Nat) (s : AState)
    (req : Request) : Except String (AState × ASession) :=
  match (env idx).launchError with
  | some m => Except.error m
  | none =>
      Except.ok
        ({ s with browsersLaunched := s.browsersLaunched + 1,
                  sessionsCreated := s.sessionsCreated + 1 },
         { status := SessStatus.running, progress := some 0,
           details := { sku := req.params.bind Params.sku,
                        asin := req.params.bind Params.asin } })

/-- Spread `{...oldDetails, ...params}` (line 1384-1387): fields present on
the request override, absent fields keep the old value. -/
def mergeParams (old p : Params) : Params :=
  { sku := p.sku <|> old.sku,
    asin := p.asin <|> old.asin,
    price := p.price <|> old.price,
    condition := p.condition <|> old.condition,
    conditionNotes := p.conditionNotes <|> old.conditionNotes }

/-- Reconstruction of the original request from the triggering session's
status details (lines 600-609). -/
def reconstructRequest (d : Params) : Request :=
  { type := ReqType.createListing,
    params := some { sku := d.sku, asin := d.asin, price := d.price,
                     condition := d.condition,
                     conditionNotes := d.conditionNotes } }

/-- The pause sweep of `handleLoginRequired` (lines 589-633): every live
session other than the trigger is set to `paused`, unconditionally. -/
def pauseOthersA (trigId : Nat) (l : List (Nat × ASession)) :
    List (Nat × ASession) :=
  mapVals (fun i a =>
    if i = trigId then a
    else { a with status := SessStatus.paused,
                  message := some "Paused for re-authentication..." }) l

/-- The result-polling loop of the login branch of `handleCreateListing`
(lines 1412-1439): an `fnsku`-bearing truthy result resolves; a result with
an `error` key rejects with that message (or a fallback); no usable result
within the 5-minute window rejects with the timeout message. -/
def pollRetriedResult (res : Option AResult) : Except String String :=
  match res with
  | none => Except.error "Timed out waiting for automation result"
  | some r =>
      match r.fnsku with
      | some f =>
          if f.isEmpty then
            match r.error with
            | some em =>
                Except.error (if em.isEmpty then "Unknown error occurred" else em)
            | none => Except.error "Timed out waiting for automation result"
          else Except.ok f
      | none =>
          match r.error with
          | some em =>
              Except.error (if em.isEmpty then "Unknown error occurred" else em)
          | none => Except.error "Timed out waiting for automation result"

/-- One retried pending automation (lines 955-1006): a fresh id, a fresh
session, a full run; the result (or the failure) is additionally recorded
under the original id when one was captured. -/
def retryOneA (runA : Nat → AState → Nat → Request → AState × AResult)
    (env : Nat → AttemptEnv) (idx : Nat) (acc : AState)
    (p : Option Nat × Request) : AState :=
  let newId := acc.nextId
  let s0 := { acc with nextId := acc.nextId + 1 }
  match createAutomationA env idx s0 p.2 with
  | Except.error m =>
      (match p.1 with
       | some origId =>
           { s0 with
             completedResults := setKV s0.completedResults origId { error := some m } }
       | none => s0)
  | Except.ok (s1, sess) =>
      let s2 := { s1 with running := setKV s1.running newId sess }
      let s3r := runA idx s2 newId p.2
      (match p.1 with
       | some origId =>
           { s3r.1 with
             completedResults := setKV s3r.1.completedResults origId s3r.2 }
       | none => s3r.1)

/-- `retryPendingAutomations` (lines 937-1024): clear the flag, take and
clear the pending queue, retry every entry, then resume every still-paused
live session to `running`. -/
def retryPendingAutomationsA (runA : Nat → AState → Nat → Request → AState × AResult)
    (env : Nat → AttemptEnv) (idx : Nat) (s : AState) : AState :=
  let s0 := { s with isReauthenticating := false }
  let pendingNow := s0.pending
  let s1 := { s0 with pending := [] }
  let s2 := pendingNow.foldl (retryOneA runA env idx) s1
  let resume := fun (i : Nat) (a : ASession) =>
    if a.status = SessStatus.paused then
      { a with status := SessStatus.running,
               message := some "Resuming after re-authentication..." }
    else a
  { s2 with running := mapVals resume s2.running }

/-- `handleLoginRequired` (lines 558-852).  If a cycle is already in flight
the caller waits for it (no modal, no state change).  Otherwise the flag is
set, the triggering session's request is captured from its status details and
the session cleaned up, every other live session is paused, the pending queue
is overwritten with the captured request, and the modal is shown.  Cancel
clears the queue and the flag and rejects with `'Authentication cancelled'`;
login either fails (`startReauthentication` clears the flag and the error
propagates) or succeeds and runs `retryPendingAutomations`. -/
def handleLoginRequiredA (runA : Nat → AState → Nat → Request → AState × AResult)
    (env : Nat → AttemptEnv) (idx : Nat) (s : AState) (trigId : Nat) :
    AState × Except String Unit :=
  if s.isReauthenticating then
    (s, Except.ok ())
  else
    let s0 := { s with isReauthenticating := true }
    let captured : Option (Option Nat × Request) :=
      (lookupKV s0.running trigId).map
        (fun a => (some trigId, reconstructRequest a.details))
    let s1 := { s0 with running := pauseOthersA trigId s0.running }
    let s2 := cleanupAutomationA s1 trigId
    let s3 :=
      match captured with
      | some tp => { s2 with pending := [tp] }
      | none => s2
    let s4 := { s3 with modalsOpened := s3.modalsOpened + 1 }
    match (env idx).modalResponse with
    | ModalResponse.cancel =>
        ({ s4 with pending := [], isReauthenticating := false },
         Except.error "Authentication cancelled")
    | ModalResponse.login =>
        let s5 := { s4 with authBrowsersLaunched := s4.authBrowsersLaunched + 1 }
        match (env idx).authError with
        | some m => ({ s5 with isReauthenticating := false }, Except.error m)
        | none => (retryPendingAutomationsA runA env (idx + 1) s5, Except.ok ())

/-- The `try` block of `handleCreateListing` (lines 1380-1903): status
update, navigation, login-wall check (with the re-authentication path and the
result poll), form fill, FNSKU extraction, post-extraction steps. -/
def hclTry (runA : Nat → AState → Nat → Request → AState × AResult)
    (env : Nat → AttemptEnv) (idx : Nat) (s : AState) (id : Nat) (p : Params) :
    AState × Except String String :=
  let upd1 := fun (i : Nat) (a : ASession) =>
    if i = id then
      { a with message := some "Navigating to listing creation page...",
               progress := some 20, details := mergeParams a.details p }
    else a
  let s1 := { s with running := mapVals upd1 s.running }
  let s2 := { s1 with navigations := s1.navigations + 1 }
  if (env idx).loginWall then
    match handleLoginRequiredA runA env idx s2 id with
    | (s3, Except.error m) => (s3, Except.error m)
    | (s3, Except.ok ()) =>
        (s3, pollRetriedResult (lookupKV s3.completedResults id))
  else
    match (env idx).preStepsError with
    | some m => (s2, Except.error m)
    | none =>
        match (env idx).fnskuText.bind fnskuMatch with
        | none => (s2, Except.error "Could not extract valid FNSKU from page")
        | some f =>
            let updRes := fun (i : Nat) (a : ASession) =>
              if i = id then { a with result := some { fnsku := some f } } else a
            let s3 := { s2 with running := mapVals updRes s2.running }
            match (env idx).postStepsError with
            | some m => (s3, Except.error m)
            | none => (cleanupAutomationA s3 id, Except.ok f)

/-- `handleCreateListing` (lines 1364-1914): the missing-parameter check
(before the `try`, so without touching the session result), then the `try`
block; its `catch` records the thrown message as the session's error result
and rethrows. -/
def handleCreateListingA (runA : Nat → AState → Nat → Request → AState × AResult)
    (env : Nat → AttemptEnv) (idx : Nat) (s : AState) (id : Nat)
    (params : Option Params) : AState × Except String String :=
  if missingListingParams params then
    (s, Except.error "Missing required parameters for listing creation")
  else
    match hclTry runA env idx s id (params.getD {}) with
    | (s1, Except.ok f) => (s1, Except.ok f)
    | (s1, Except.error m) =>
        let updCatch := fun (i : Nat) (a : ASession) =>
          if i = id then { a with result := some { error := some m } } else a
        ({ s1 with running := mapVals updCatch s1.running }, Except.error m)

/-- `runAutomation` (lines 1274-1329): dispatch on the request type; on
success set the terminal status, store the result (with truncation) and clean
up; any thrown error is caught, recorded as the error result (status, session
result and cache) and returned — `runAutomation` itself never rejects. -/
def runAutomationBody (runA : Nat → AState → Nat → Request → AState × AResult)
    (env : Nat → AttemptEnv) (idx : Nat) (s : AState) (id : Nat)
    (req : Request) : AState × AResult :=
  let dispatched : AState × Except String AResult :=
    match req.type with
    | ReqType.inventory => (s, Except.ok {})
    | ReqType.orders => (s, Except.ok {})
    | ReqType.createListing =>
        match handleCreateListingA runA env idx s id req.params with
        | (s1, Except.ok f) => (s1, Except.ok { fnsku := some f })
        | (s1, Except.error m) => (s1, Except.error m)
  match dispatched with
  | (s1, Except.ok result) =>
      let updDone := fun (i : Nat) (a : ASession) =>
        if i = id then { a with status := SessStatus.completed, progress := some 100 }
        else a
      let s2 := { s1 with running := mapVals updDone s1.running }
      let updSet := fun (i : Nat) (a : ASession) =>
        if i = id then { a with result := some result } else a
      let s3 := { s2 with running := mapVals updSet s2.running }
      let s4 := { s3 with
        completedResults := cleanupCompletedResults (setKV s3.completedResults id result) }
      (cleanupAutomationA s4 id, result)
  | (s1, Except.error m) =>
      let errRes : AResult := { error := some m }
      let updErr := fun (i : Nat) (a : ASession) =>
        if i = id then { a with status := SessStatus.error, message := some m }
        else a
      let s2 := { s1 with running := mapVals updErr s1.running }
      let updSet := fun (i : Nat) (a : ASession) =>
        if i = id then { a with result := some errRes } else a
      let s3 := { s2 with running := mapVals updSet s2.running }
      let s4 := { s3 with
        completedResults := cleanupCompletedResults (setKV s3.completedResults id errRes) }
      (cleanupAutomationA s4 id, errRes)

/-- `runAutomation`, with fuel bounding the retry nesting.  Exhausted fuel
stands for an attempt that never produced a result within the bounded waits
and is reported as an error result. -/
def runAutomationA (env : Nat → AttemptEnv) :
    Nat → Nat → AState → Nat → Request → AState × AResult
  | 0, _, s, _, _ => (s, { error := some "fuel exhausted" })
  | fuel + 1, idx, s, id, req =>
      runAutomationBody (runAutomationA env fuel) env idx s id req

/-- `startAutomation` (lines 1041-1105).  While re-authenticating the request
is queued and the literal `'pending-auth'` returned.  Otherwise a fresh id is
drawn, a browser launched and a session created and registered, and the run
is awaited; `runAutomation` returns normally even on failure, so the call
resolves with the id (the inner login-retry catch of lines 1072-1098 is
unreachable).  A browser-launch failure propagates as a rejection. -/
def startAutomationA (env : Nat → AttemptEnv) (fuel idx : Nat) (s : AState)
    (req : Request) : AState × StartOutcome :=
  if s.isReauthenticating then
    ({ s with pending := s.pending ++ [(none, req)] },
     StartOutcome.ok StartRet.pendingAuth)
  else
    let id := s.nextId
    let s0 := { s with nextId := s.nextId + 1 }
    match createAutomationA env idx s0 req with
    | Except.error m => (s0, StartOutcome.threw m)
    | Except.ok (s1, sess) =>
        let s2 := { s1 with running := setKV s1.running id sess }
        let s3r := runAutomationA env fuel idx s2 id req
        (s3r.1, StartOutcome.ok (StartRet.sessionId id))

/-- `getAutomationResult` (lines 1979-2004): the live-session map first (its
result, when set), then the completed-results cache, else `null`.  The
function is total and reads the state without modifying it. -/
def getAutomationResultA (s : AState) (id : Nat) : Option AResult :=
  match lookupKV s.running id with
  | some a =>
      match a.result with
      | some r => some r
      | none => lookupKV s.completedResults id
  | none => lookupKV s.completedResults id

/-! ## Model of the `/print-label` HTTP endpoint (`main.ts`, lines 306-439) -/

/-- Outcome of one `execPromise(lp ...)` call: a resolution carrying optional
`stderr`, or a rejection. -/
inductive ExecOutcome where
  | ok (stderr : Option String)
  | threw (msg : String)
  deriving DecidableEq, Repr

/-- Request body of `POST /print-label`; `quantity` defaults to `1` when
absent (line 308). -/
structure PrintLabelBody where
  fnsku : Option String := none
  sku : Option String := none
  asin : Option String := none
  title : Option String := none
  condition : Option String := none
  quantity : Option Nat := none
  deriving DecidableEq, Repr

/-- Environment of one `/print-label` request: the outcome of `generateLabel`,
the platform, the Windows print call, and the `lp` invocation for each copy
(indexed from 1). -/
structure PrintEnv where
  generateOutcome : Except String String := Except.ok "label.pdf"
  isWin32 : Bool := false
  winPrint : Except String Unit := Except.ok ()
  unixExec : Nat → ExecOutcome := fun _ => ExecOutcome.ok none

/-- An HTTP response as the endpoint shapes it: status code, `success` flag,
optional `error` message. -/
structure HttpResponse where
  status : Nat
  success : Bool
  error : Option String := none
  deriving DecidableEq, Repr

/-- The parameter check of `/print-label` (line 320): `!fnsku || !sku ||
!asin` under JS truthiness. -/
def missingPrintParams (b : PrintLabelBody) : Bool :=
  strFalsy b.fnsku || strFalsy b.sku || strFalsy b.asin

/-- The Unix copy loop (lines 412-424): one `lp` execution per copy; a copy
resolving with `stderr` returns `200 {success:false}` at once; a rejection
reaches the endpoint's catch, which also answers `200` with the message;
completing every copy answers `200 {success:true}` (line 428). -/
def printUnixLoop (env : PrintEnv) : Nat → Nat → HttpResponse
  | _, 0 => { status := 200, success := true }
  | i, k + 1 =>
      match env.unixExec i with
      | ExecOutcome.threw m => { status := 200, success := false, error := some m }
      | ExecOutcome.ok (some _) => { status := 200, success := false }
      | ExecOutcome.ok none => printUnixLoop env (i + 1) k

/-- The `/print-label` handler (lines 306-439).  Missing required parameters
answer `400`; every other outcome, including label-generation and printing
failures, answers `200`, failures carrying `success:false` (the catch at
lines 430-438 deliberately answers `200`). -/
def printLabelHandler (b : PrintLabelBody) (env : PrintEnv) : HttpResponse :=
  if missingPrintParams b then
    { status := 400, success := false,
      error := some "Missing required parameters (fnsku, sku, asin)" }
  else
    match env.generateOutcome with
    | Except.error m => { status := 200, success := false, error := some m }
    | Except.ok _labelPath =>
        if env.isWin32 then
          match env.winPrint with
          | Except.error m => { status := 200, success := false, error := some m }
          | Except.ok () => { status := 200, success := true }
        else
          printUnixLoop env 1 (b.quantity.getD 1)

/-! ## Model B: event-level transition system

Events are the synchronous segments of the event-loop execution that touch
the manager's shared state; between two events, any number of other tasks may
run.  In particular a session whose terminal status has been set is removed
from the live map only by a later `cleanupDone` event (`cleanupAutomation`
suspends at `browser.close()` between the two). -/

/-- A live session in Model B: its status, the request parameters carried in
its status details (set by `createAutomation`/`handleCreateListing` before
any suspension that could observe them), and whether its cleanup has been
initiated. -/
structure BSession where
  status : SessStatus
  details : Params
  cleaning : Bool := false
  deriving DecidableEq, Repr

/-- Shared manager state for Model B.  `modalsOpen` / `authBrowsers` count
currently open re-authentication modal windows and visible auth browsers;
`awaiting` is true while the modal waits for the once-only user response;
`cycleTrigger` is the id of the automation that triggered the in-flight
cycle (to which the cycle's rejection or retried result is reported). -/
structure BState where
  nextId : Nat := 0
  sessions : List (Nat × BSession) := []
  pending : List (Option Nat × Params) := []
  completedR : List (Nat × AResult) := []
  flag : Bool := false
  modalsOpen : Nat := 0
  authBrowsers : Nat := 0
  awaiting : Bool := false
  cycleTrigger : Option Nat := none
  deriving DecidableEq, Repr

/-- Events of Model B.

* `startAuto`: `startAutomation` begins while no cycle is in flight
  (id drawn, browser launched, session registered as `running`);
* `queueReq`: `startAutomation` while re-authenticating — the request is
  queued and `'pending-auth'` returned (lines 1042-1050);
* `finishOk` / `finishErr`: `runAutomation` reaches its terminal block for a
  live session (terminal status set, result stored with truncation, cleanup
  initiated; lines 1295-1328);
* `cleanupDone`: `cleanupAutomation` completes, removing the session from the
  live map (line 457);
* `loginDetected`: a session hits the login wall and calls
  `handleLoginRequired`; with a cycle already in flight this only waits
  (lines 564-581); otherwise the flag is set, the trigger is captured into
  the pending queue and cleaned up, every other live session is paused and
  the modal is opened (lines 582-814);
* `modalLogin` / `modalCancel`: the once-only user response (lines 818-837);
* `authFail`: `startReauthentication` fails (browser and popup closed, flag
  cleared, the error rejects the trigger's wait; lines 919-934);
* `authSuccess`: the login wait succeeds; the cycle's popup closes and
  `retryPendingAutomations` runs: flag cleared, queue drained and every
  drained request retried with a fresh session (results under the fresh id
  and the original id), the trigger's poll stores its result, and every
  still-paused session resumes (lines 881-912, 937-1024). -/
inductive BEvent where
  | startAuto (p : Params)
  | queueReq (p : Params)
  | finishOk (id : Nat) (fnsku : String)
  | finishErr (id : Nat) (msg : String)
  | cleanupDone (id : Nat)
  | loginDetected (id : Nat)
  | modalLogin
  | modalCancel
  | authFail (msg : String)
  | authSuccess (outcomes : List AResult)
  deriving DecidableEq, Repr

/-- Record the cycle's failure (`'Authentication cancelled'` or the reauth
error) as the trigger's error result — the rejection propagates to the
trigger's `runAutomation` catch, which stores it with truncation. -/
def storeTrigErrR (trig : Option Nat) (l : List (Nat × AResult)) (msg : String) :
    List (Nat × AResult) :=
  match trig with
  | some t => cleanupCompletedResults (setKV l t { error := some msg })
  | none => l

/-- The pause sweep (lines 625-632): every live session other than the
trigger is set to `paused`, regardless of its current status. -/
def pauseOthersB (trigId : Nat) (l : List (Nat × BSession)) :
    List (Nat × BSession) :=
  mapVals (fun i a =>
    if i = trigId then a else { a with status := SessStatus.paused }) l

/-- One retried pending automation in Model B (lines 955-1006): a fresh id is
drawn, the request is run to a terminal result (taken from the event's
outcome list, in order), the result is stored under the fresh id with
truncation and additionally under the original id when present; the retried
session itself is created and cleaned up within the segment. -/
def retryOneB (acc : BState × List AResult) (p : Option Nat × Params) :
    BState × List AResult :=
  let r := (acc.2.headD { error := some "Unknown error occurred" })
  let rest := acc.2.tail
  let s0 := { acc.1 with nextId := acc.1.nextId + 1 }
  let s1 := { s0 with completedR :=
      cleanupCompletedResults (setKV s0.completedR acc.1.nextId r) }
  let s2 :=
    match p.1 with
    | some origId => { s1 with completedR := setKV s1.completedR origId r }
    | none => s1
  (s2, rest)

/-- After the retries, the trigger's polling loop (lines 1412-1439) reads the
result stored under its id and its `runAutomation` stores the polled value
(success or error) back under the same id with truncation. -/
def restoreValue (r : Except String String) : AResult :=
  match r with
  | Except.ok f => { fnsku := some f }
  | Except.error m => { error := some m }

def restoreTriggerR (trig : Option Nat) (l : List (Nat × AResult)) :
    List (Nat × AResult) :=
  match trig with
  | none => l
  | some t =>
      cleanupCompletedResults
        (setKV l t (restoreValue (pollRetriedResult (lookupKV l t))))


/-- The resume sweep (lines 1015-1023): every still-paused live session is
set back to `running`. -/
def resumePausedB (l : List (Nat × BSession)) : List (Nat × BSession) :=
  mapVals (fun _ a =>
    if a.status = SessStatus.paused then { a with status := SessStatus.running }
    else a) l

/-- The target state of a successful cycle completion (`authSuccess`):
popup and auth browser closed, `retryPendingAutomations` (flag cleared, queue
drained and retried, trigger result re-stored, paused sessions resumed). -/
def authSuccessState (s : BState) (outs : List AResult) : BState :=
  let s1 : BState := { s with authBrowsers := 0, modalsOpen := s.modalsOpen - 1,
                              flag := false, pending := [] }
  let s2 := (s.pending.foldl retryOneB (s1, outs)).1
  { s2 with completedR := restoreTriggerR s2.cycleTrigger s2.completedR,
            sessions := resumePausedB s2.sessions, cycleTrigger := none }

/-- The transition function of Model B; `none` when the event's guard does
not hold in the state. -/
def stepB (s : BState) (e : BEvent) : Option BState :=
  match e with
  | BEvent.startAuto p =>
      if s.flag then none
      else
        some { s with
          sessions := s.sessions ++ [(s.nextId, { status := SessStatus.running, details := p })],
          nextId := s.nextId + 1 }
  | BEvent.queueReq p =>
      if s.flag then some { s with pending := s.pending ++ [(none, p)] } else none
  | BEvent.finishOk id f =>
      match lookupKV s.sessions id with
      | some ss =>
          if ss.status = SessStatus.running ∨ ss.status = SessStatus.paused then
            some { s with
              sessions := mapVals (fun i a =>
                if i = id then { a with status := SessStatus.completed, cleaning := true }
                else a) s.sessions,
              completedR := cleanupCompletedResults (setKV s.completedR id { fnsku := some f }) }
          else none
      | none => none
  | BEvent.finishErr id m =>
      match lookupKV s.sessions id with
      | some ss =>
          if ss.status = SessStatus.running ∨ ss.status = SessStatus.paused then
            some { s with
              sessions := mapVals (fun i a =>
                if i = id then { a with status := SessStatus.error, cleaning := true }
                else a) s.sessions,
              completedR := cleanupCompletedResults (setKV s.completedR id { error := some m }) }
          else none
      | none => none
  | BEvent.cleanupDone id =>
      match lookupKV s.sessions id with
      | some ss =>
          if ss.cleaning then some { s with sessions := removeKV s.sessions id }
          else none
      | none => none
  | BEvent.loginDetected id =>
      if s.flag then
        some s
      else
        match lookupKV s.sessions id with
        | none => none
        | some trig =>
            some { s with
              flag := true,
              cycleTrigger := some id,
              pending := [(some id, trig.details)],
              sessions := removeKV (pauseOthersB id s.sessions) id,
              modalsOpen := s.modalsOpen + 1,
              awaiting := true }
  | BEvent.modalLogin =>
      if s.awaiting then
        some { s with awaiting := false, authBrowsers := s.authBrowsers + 1 }
      else none
  | BEvent.modalCancel =>
      if s.awaiting then
        some { s with
          completedR := storeTrigErrR s.cycleTrigger s.completedR "Authentication cancelled",
          awaiting := false, modalsOpen := s.modalsOpen - 1,
          pending := [], flag := false, cycleTrigger := none }
      else none
  | BEvent.authFail m =>
      if s.authBrowsers = 1 then
        some { s with
          completedR := storeTrigErrR s.cycleTrigger s.completedR m,
          authBrowsers := 0, modalsOpen := s.modalsOpen - 1,
          flag := false, cycleTrigger := none }
      else none
  | BEvent.authSuccess outs =>
      if s.authBrowsers = 1 then some (authSuccessState s outs) else none

/-- Run a list of events from a state; events whose guard fails are skipped. -/
def bRun (s : BState) : List BEvent → BState
  | [] => s
  | e :: es => bRun ((stepB s e).getD s) es

/-- States reachable from the initial manager state. -/
inductive ReachableB : BState → Prop where
  | init : ReachableB {}
  | step {s s' : BState} {e : BEvent} :
      ReachableB s → stepB s e = some s' → ReachableB s'

/-- Status of a live session in Model B. -/
def statusOfB (s : BState) (i : Nat) : Option SessStatus :=
  (lookupKV s.sessions i).map BSession.status

/-! ### Invariants of Model B -/

/-- Ids of the live sessions. -/
def sessionIds (s : BState) : List Nat := s.sessions.map Prod.fst

/-- Original ids carried by the pending queue. -/
def pendingOrigIds (s : BState) : List Nat := s.pending.filterMap Prod.fst

theorem fst_mapVals {α : Type} (g : Nat → α → α) (l : List (Nat × α)) :
    (mapVals g l).map Prod.fst = l.map Prod.fst := by
  induction l with
  | nil => rfl
  | cons p rest ih => simpa [mapVals] using ih

theorem mem_fst_removeKV {α : Type} (l : List (Nat × α)) (k i : Nat)
    (h : i ∈ (removeKV l k).map Prod.fst) : i ∈ l.map Prod.fst := by
  induction l with
  | nil => simpa [removeKV] using h
  | cons p rest ih =>
      obtain ⟨a, b⟩ := p
      by_cases ha : a = k
      · simp only [removeKV, if_pos ha] at h
        simp [ih h]
      · simp only [removeKV, if_neg ha, List.map_cons, List.mem_cons] at h
        rcases h with h | h
        · simp [h]
        · simp [ih h]

theorem not_mem_fst_removeKV_self {α : Type} (l : List (Nat × α)) (k : Nat) :
    k ∉ (removeKV l k).map Prod.fst := by
  induction l with
  | nil => simp [removeKV]
  | cons p rest ih =>
      obtain ⟨a, b⟩ := p
      by_cases ha : a = k
      · simpa [removeKV, ha] using ih
      · simp [removeKV, ha, ih, Ne.symm ha]

theorem lookupKV_mem {α : Type} (l : List (Nat × α)) (i : Nat) (v : α)
    (h : lookupKV l i = some v) : i ∈ l.map Prod.fst := by
  induction l with
  | nil => simp [lookupKV] at h
  | cons p rest ih =>
      obtain ⟨a, b⟩ := p
      by_cases ha : a = i
      · simp [ha]
      · simp only [lookupKV, if_neg ha] at h
        simp [ih h]

/-- Master invariant of the re-authentication protocol: at most one modal and
one auth browser, none outside a cycle, a modal awaiting its response while
no auth browser runs, and a captured trigger that is no longer live and was
drawn from the id source. -/
def InvB (s : BState) : Prop :=
  s.modalsOpen ≤ 1 ∧
  s.authBrowsers ≤ 1 ∧
  (s.flag = false →
    s.modalsOpen = 0 ∧ s.authBrowsers = 0 ∧ s.awaiting = false ∧
    s.cycleTrigger = none) ∧
  (s.awaiting = true → s.modalsOpen = 1 ∧ s.authBrowsers = 0) ∧
  (s.authBrowsers = 1 → s.modalsOpen = 1 ∧ s.awaiting = false) ∧
  (∀ i ∈ sessionIds s, i < s.nextId) ∧
  (∀ t, s.cycleTrigger = some t → t ∉ sessionIds s ∧ t < s.nextId)

theorem invB_init : InvB {} := by
  unfold InvB
  refine ⟨?_, ?_, ?_, ?_, ?_, ?_, ?_⟩ <;> simp [sessionIds]

theorem retryFoldB_fields (P : List (Option Nat × Params)) (s : BState)
    (outs : List AResult) :
    (P.foldl retryOneB (s, outs)).1.sessions = s.sessions ∧
    (P.foldl retryOneB (s, outs)).1.pending = s.pending ∧
    (P.foldl retryOneB (s, outs)).1.flag = s.flag ∧
    (P.foldl retryOneB (s, outs)).1.modalsOpen = s.modalsOpen ∧
    (P.foldl retryOneB (s, outs)).1.authBrowsers = s.authBrowsers ∧
    (P.foldl retryOneB (s, outs)).1.awaiting = s.awaiting ∧
    (P.foldl retryOneB (s, outs)).1.cycleTrigger = s.cycleTrigger ∧
    (P.foldl retryOneB (s, outs)).1.nextId = s.nextId + P.length := by
  induction P generalizing s outs with
  | nil => simp
  | cons p rest ih =>
      simp only [List.foldl_cons]
      have heq : (retryOneB (s, outs) p).1.sessions = s.sessions ∧
          (retryOneB (s, outs) p).1.pending = s.pending ∧
          (retryOneB (s, outs) p).1.flag = s.flag ∧
          (retryOneB (s, outs) p).1.modalsOpen = s.modalsOpen ∧
          (retryOneB (s, outs) p).1.authBrowsers = s.authBrowsers ∧
          (retryOneB (s, outs) p).1.awaiting = s.awaiting ∧
          (retryOneB (s, outs) p).1.cycleTrigger = s.cycleTrigger ∧
          (retryOneB (s, outs) p).1.nextId = s.nextId + 1 := by
        unfold retryOneB
        rcases p with ⟨o, q⟩
        cases o <;> simp
      obtain ⟨h1, h2, h3, h4, h5, h6, h7, h8⟩ := heq
      have := ih (retryOneB (s, outs) p).1 (retryOneB (s, outs) p).2
      rcases this with ⟨g1, g2, g3, g4, g5, g6, g7, g8⟩
      refine ⟨?_, ?_, ?_, ?_, ?_, ?_, ?_, ?_⟩
      · rw [g1, h1]
      · rw [g2, h2]
      · rw [g3, h3]
      · rw [g4, h4]
      · rw [g5, h5]
      · rw [g6, h6]
      · rw [g7, h7]
      · rw [g8, h8]
        simp only [List.length_cons]
        omega

theorem authSuccessState_fields (s : BState) (outs : List AResult) :
    (authSuccessState s outs).modalsOpen = s.modalsOpen - 1 ∧
    (authSuccessState s outs).authBrowsers = 0 ∧
    (authSuccessState s outs).awaiting = s.awaiting ∧
    (authSuccessState s outs).flag = false ∧
    (authSuccessState s outs).pending = [] ∧
    (authSuccessState s outs).cycleTrigger = none ∧
    (authSuccessState s outs).nextId = s.nextId + s.pending.length ∧
    (authSuccessState s outs).sessions = resumePausedB s.sessions := by
  obtain ⟨g1, g2, g3, g4, g5, g6, g7, g8⟩ :=
    retryFoldB_fields s.pending
      { s with authBrowsers := 0, modalsOpen := s.modalsOpen - 1,
               flag := false, pending := [] } outs
  unfold authSuccessState
  refine ⟨by simp [g4], by simp [g5], by simp [g6], by simp [g3], by simp [g2],
          by simp, by simp [g8], by simp [g1]⟩

theorem invB_step {s s' : BState} {e : BEvent} (hinv : InvB s)
    (hstep : stepB s e = some s') : InvB s' := by
  obtain ⟨h1, h2, h3, h4, h5, h6, h7⟩ := hinv
  cases e with
  | startAuto p =>
      simp only [stepB] at hstep
      by_cases hf : s.flag
      · simp [hf] at hstep
      · simp only [if_neg hf] at hstep
        have hf2 : s.flag = false := Bool.not_eq_true _ ▸ by simpa using hf
        obtain ⟨hm, ha, hw, ht⟩ := h3 hf2
        obtain rfl : _ = s' := Option.some.inj hstep
        refine ⟨by simpa using h1, by simpa using h2, ?_, ?_, ?_, ?_, ?_⟩
        · intro _
          simpa [hm, ha, hw, ht] using True.intro
        · intro hwa
          simp at hwa
          rw [hw] at hwa
          cases hwa
        · intro hab
          simp at hab
          rw [ha] at hab
          cases hab
        · intro i hi
          simp only [sessionIds, List.map_append] at hi
          rcases List.mem_append.mp hi with hi | hi
          · have := h6 i hi
            simp
            omega
          · simp at hi
            simp [hi]
        · intro t htr
          simp at htr
          rw [ht] at htr
          cases htr
  | queueReq p =>
      simp only [stepB] at hstep
      by_cases hf : s.flag
      · simp only [if_pos hf] at hstep
        obtain rfl : _ = s' := Option.some.inj hstep
        exact ⟨by simpa using h1, by simpa using h2, by simpa using h3,
               by simpa using h4, by simpa using h5, by simpa using h6,
               by simpa [sessionIds] using h7⟩
      · simp [hf] at hstep
  | finishOk id f =>
      simp only [stepB] at hstep
      rcases hl : lookupKV s.sessions id with _ | ss
      · simp [hl] at hstep
      · simp only [hl] at hstep
        by_cases hss : ss.status = SessStatus.running ∨ ss.status = SessStatus.paused
        · simp only [if_pos hss] at hstep
          obtain rfl : _ = s' := Option.some.inj hstep
          refine ⟨by simpa using h1, by simpa using h2, by simpa using h3,
                  by simpa using h4, by simpa using h5, ?_, ?_⟩
          · intro i hi
            simp only [sessionIds, fst_mapVals] at hi
            simpa using h6 i hi
          · intro t htr
            simp only at htr
            obtain ⟨hta, htb⟩ := h7 t htr
            constructor
            · simpa [sessionIds, fst_mapVals] using hta
            · simpa using htb
        · simp [hss] at hstep
  | finishErr id m =>
      simp only [stepB] at hstep
      rcases hl : lookupKV s.sessions id with _ | ss
      · simp [hl] at hstep
      · simp only [hl] at hstep
        by_cases hss : ss.status = SessStatus.running ∨ ss.status = SessStatus.paused
        · simp only [if_pos hss] at hstep
          obtain rfl : _ = s' := Option.some.inj hstep
          refine ⟨by simpa using h1, by simpa using h2, by simpa using h3,
                  by simpa using h4, by simpa using h5, ?_, ?_⟩
          · intro i hi
            simp only [sessionIds, fst_mapVals] at hi
            simpa using h6 i hi
          · intro t htr
            simp only at htr
            obtain ⟨hta, htb⟩ := h7 t htr
            constructor
            · simpa [sessionIds, fst_mapVals] using hta
            · simpa using htb
        · simp [hss] at hstep
  | cleanupDone id =>
      simp only [stepB] at hstep
      rcases hl : lookupKV s.sessions id with _ | ss
      · simp [hl] at hstep
      · simp only [hl] at hstep
        by_cases hc : ss.cleaning = true
        · simp only [if_pos hc] at hstep
          obtain rfl : _ = s' := Option.some.inj hstep
          refine ⟨by simpa using h1, by simpa using h2, by simpa using h3,
                  by simpa using h4, by simpa using h5, ?_, ?_⟩
          · intro i hi
            simp only [sessionIds] at hi
            have := mem_fst_removeKV _ _ _ hi
            simpa using h6 i this
          · intro t htr
            simp only at htr
            obtain ⟨hta, htb⟩ := h7 t htr
            refine ⟨?_, by simpa using htb⟩
            intro hmem
            simp only [sessionIds] at hmem
            exact hta (mem_fst_removeKV _ _ _ hmem)
        · simp [hc] at hstep
  | loginDetected id =>
      simp only [stepB] at hstep
      by_cases hf : s.flag
      · simp only [if_pos hf] at hstep
        obtain rfl : _ = s' := Option.some.inj hstep
        exact ⟨h1, h2, h3, h4, h5, h6, h7⟩
      · simp only [if_neg hf] at hstep
        have hf2 : s.flag = false := by simpa using hf
        obtain ⟨hm, ha, hw, ht⟩ := h3 hf2
        rcases hl : lookupKV s.sessions id with _ | trig
        · simp [hl] at hstep
        · simp only [hl] at hstep
          obtain rfl : _ = s' := Option.some.inj hstep
          refine ⟨by simp [hm], by simpa [ha] using Nat.zero_le 1, ?_, ?_, ?_, ?_, ?_⟩
          · intro hff
            simp at hff
          · intro _
            simp [hm, ha]
          · intro hab
            simp at hab
            rw [ha] at hab
            cases hab
          · intro i hi
            simp only [sessionIds] at hi
            have h2m := mem_fst_removeKV _ _ _ hi
            simp only [pauseOthersB] at h2m
            rw [fst_mapVals] at h2m
            simpa using h6 i h2m
          · intro t htr
            simp only [Option.some.injEq] at htr
            subst htr
            constructor
            · intro hmem
              simp only [sessionIds] at hmem
              have hx := not_mem_fst_removeKV_self (pauseOthersB id s.sessions) id
              exact hx (by simpa using hmem)
            · have := lookupKV_mem _ _ _ hl
              simpa using h6 id this
  | modalLogin =>
      simp only [stepB] at hstep
      by_cases hw : s.awaiting
      · simp only [if_pos hw] at hstep
        obtain ⟨hm1, ha0⟩ := h4 (by simpa using hw)
        obtain rfl : _ = s' := Option.some.inj hstep
        refine ⟨by simpa [hm1] using Nat.le_refl 1, by simp [ha0], ?_, ?_, ?_,
               by simpa using h6, by simpa [sessionIds] using h7⟩
        · intro hff
          simp at hff
          by_cases hfs : s.flag
          · rw [hff] at hfs
            cases hfs
          · have := (h3 (by simpa using hfs)).2.2.1
            rw [this] at hw
            cases hw
        · intro hwa
          simp at hwa
        · intro _
          simpa [hm1] using True.intro
      · simp [hw] at hstep
  | modalCancel =>
      simp only [stepB] at hstep
      by_cases hw : s.awaiting
      · simp only [if_pos hw] at hstep
        obtain rfl : _ = s' := Option.some.inj hstep
        obtain ⟨hm1, ha0⟩ := h4 (by simpa using hw)
        refine ⟨?_, ?_, ?_, ?_, ?_, ?_, ?_⟩
        · show s.modalsOpen - 1 ≤ 1
          omega
        · show s.authBrowsers ≤ 1
          exact h2
        · intro _
          refine ⟨?_, ha0, rfl, rfl⟩
          show s.modalsOpen - 1 = 0
          omega
        · intro hwa
          simp at hwa
        · intro hab
          simp only at hab
          rw [ha0] at hab
          cases hab
        · intro i hi
          simp only [sessionIds] at hi
          exact h6 i hi
        · intro t htr
          simp at htr
      · simp [hw] at hstep
  | authFail m =>
      simp only [stepB] at hstep
      by_cases hb : s.authBrowsers = 1
      · simp only [if_pos hb] at hstep
        obtain rfl : _ = s' := Option.some.inj hstep
        obtain ⟨hm1, hw0⟩ := h5 hb
        refine ⟨?_, ?_, ?_, ?_, ?_, ?_, ?_⟩
        · show s.modalsOpen - 1 ≤ 1
          omega
        · show (0 : Nat) ≤ 1
          omega
        · intro _
          refine ⟨?_, rfl, hw0, rfl⟩
          show s.modalsOpen - 1 = 0
          omega
        · intro hwa
          simp only at hwa
          rw [hw0] at hwa
          cases hwa
        · intro hab
          simp at hab
        · intro i hi
          simp only [sessionIds] at hi
          exact h6 i hi
        · intro t htr
          simp at htr
      · simp [hb] at hstep
  | authSuccess outs =>
      simp only [stepB] at hstep
      by_cases hb : s.authBrowsers = 1
      · simp only [if_pos hb] at hstep
        obtain rfl : _ = s' := Option.some.inj hstep
        obtain ⟨hm1, hw0⟩ := h5 hb
        obtain ⟨f1, f2, f3, f4, f5, f6, f7, f8⟩ := authSuccessState_fields s outs
        refine ⟨?_, ?_, ?_, ?_, ?_, ?_, ?_⟩
        · rw [f1]
          omega
        · rw [f2]
          omega
        · intro _
          exact ⟨by rw [f1]; omega, f2, by rw [f3]; exact hw0, f6⟩
        · intro hwa
          rw [f3, hw0] at hwa
          cases hwa
        · intro hab
          rw [f2] at hab
          cases hab
        · intro i hi
          simp only [sessionIds, f8, resumePausedB] at hi
          rw [fst_mapVals] at hi
          have := h6 i hi
          rw [f7]
          omega
        · intro t htr
          rw [f6] at htr
          cases htr
      · simp [hb] at hstep

/-- Every reachable state satisfies the invariant. -/
theorem invB_reachable {s : BState} (h : ReachableB s) : InvB s := by
  induction h with
  | init => exact invB_init
  | step _ hstep ih => exact invB_step ih hstep

/-- `bRun` preserves reachability (guard-failing events are skipped). -/
theorem reachable_bRun {s : BState} (h : ReachableB s) (es : List BEvent) :
    ReachableB (bRun s es) := by
  induction es generalizing s with
  | nil => exact h
  | cons e rest ih =>
      simp only [bRun]
      rcases hst : stepB s e with _ | s2
      · simpa [hst] using ih h
      · simpa [hst] using ih (ReachableB.step h hst)

/-! ### No-success invariant for a retired session id (claim C5) -/

/-- The cache never answers a success (fnsku-bearing) result for id `t`. -/
def NoSuccessAt (t : Nat) (l : List (Nat × AResult)) : Prop :=
  ∀ r, lookupKV l t = some r → r.fnsku = none

theorem noSuccessAt_setKV_ne {t k : Nat} (h : t ≠ k) (l : List (Nat × AResult))
    (v : AResult) (hn : NoSuccessAt t l) : NoSuccessAt t (setKV l k v) := by
  intro r hr
  rw [lookupKV_setKV_ne l k t v h] at hr
  exact hn r hr

theorem noSuccessAt_setKV_err {t k : Nat} {v : AResult} (hv : v.fnsku = none)
    (l : List (Nat × AResult)) (hn : NoSuccessAt t l) :
    NoSuccessAt t (setKV l k v) := by
  by_cases htk : t = k
  · subst htk
    intro r hr
    rw [lookupKV_setKV_self] at hr
    obtain rfl : v = r := Option.some.inj hr
    exact hv
  · exact noSuccessAt_setKV_ne htk l v hn

theorem noSuccessAt_cleanup {t : Nat} {l : List (Nat × AResult)}
    (hn : NoSuccessAt t l) : NoSuccessAt t (cleanupCompletedResults l) := by
  intro r hr
  exact hn r (lookupKV_cleanup l t r hr)

theorem noSuccessAt_storeTrigErrR {t : Nat} (trig : Option Nat)
    (l : List (Nat × AResult)) (msg : String) (hn : NoSuccessAt t l) :
    NoSuccessAt t (storeTrigErrR trig l msg) := by
  unfold storeTrigErrR
  cases trig with
  | none => exact hn
  | some t2 => exact noSuccessAt_cleanup (noSuccessAt_setKV_err rfl l hn)

theorem noSuccessAt_restoreTriggerR {t : Nat} (trig : Option Nat)
    (l : List (Nat × AResult)) (htr : trig ≠ some t) (hn : NoSuccessAt t l) :
    NoSuccessAt t (restoreTriggerR trig l) := by
  unfold restoreTriggerR
  cases trig with
  | none => exact hn
  | some t2 =>
      have ht2 : t ≠ t2 := by
        intro h
        exact htr (by rw [h])
      exact noSuccessAt_cleanup (noSuccessAt_setKV_ne ht2 _ _ hn)

/-- A retired id: strictly below the id source, not live, not referenced by
the pending queue or the in-flight cycle, and never mapped to a success. -/
def SafeId (t : Nat) (s : BState) : Prop :=
  t < s.nextId ∧
  t ∉ sessionIds s ∧
  t ∉ pendingOrigIds s ∧
  s.cycleTrigger ≠ some t ∧
  NoSuccessAt t s.completedR

theorem retryFoldB_safe (t : Nat) (P : List (Option Nat × Params)) (s : BState)
    (outs : List AResult) (hlt : t < s.nextId)
    (hp : t ∉ P.filterMap Prod.fst) (hn : NoSuccessAt t s.completedR) :
    NoSuccessAt t ((P.foldl retryOneB (s, outs)).1).completedR := by
  induction P generalizing s outs with
  | nil => simpa using hn
  | cons p rest ih =>
      rcases p with ⟨o, q⟩
      simp only [List.foldl_cons]
      have hnext : (retryOneB (s, outs) (o, q)).1.nextId = s.nextId + 1 := by
        unfold retryOneB
        cases o <;> simp
      have hcomp : NoSuccessAt t (retryOneB (s, outs) (o, q)).1.completedR := by
        unfold retryOneB
        cases o with
        | none =>
            simpa using
              noSuccessAt_cleanup (noSuccessAt_setKV_ne (by omega) _ _ hn)
        | some origId =>
            have hto : t ≠ origId := by
              intro h
              exact hp (by simp [h])
            simpa using
              noSuccessAt_setKV_ne hto _ _
                (noSuccessAt_cleanup (noSuccessAt_setKV_ne (by omega) _ _ hn))
      have hp2 : t ∉ rest.filterMap Prod.fst := by
        intro hx
        apply hp
        simp only [List.filterMap_cons]
        cases o with
        | none => simpa using hx
        | some o2 => simp [hx]
      have hlt2 : t < (retryOneB (s, outs) (o, q)).1.nextId := by
        rw [hnext]
        omega
      exact ih _ _ hlt2 hp2 hcomp

theorem safeId_step {t : Nat} {s s' : BState} {e : BEvent}
    (hs : SafeId t s) (hstep : stepB s e = some s') : SafeId t s' := by
  obtain ⟨h1, h2, h3, h4, h5⟩ := hs
  cases e with
  | startAuto p =>
      simp only [stepB] at hstep
      by_cases hf : s.flag
      · simp [hf] at hstep
      · simp only [if_neg hf] at hstep
        obtain rfl : _ = s' := Option.some.inj hstep
        refine ⟨by simp; omega, ?_, by simpa [pendingOrigIds] using h3,
               by simpa using h4, by simpa using h5⟩
        intro hmem
        simp only [sessionIds, List.map_append] at hmem
        rcases List.mem_append.mp hmem with hx | hx
        · exact h2 (by simpa [sessionIds] using hx)
        · simp at hx
          omega
  | queueReq p =>
      simp only [stepB] at hstep
      by_cases hf : s.flag
      · simp only [if_pos hf] at hstep
        obtain rfl : _ = s' := Option.some.inj hstep
        refine ⟨by simpa using h1, by simpa [sessionIds] using h2, ?_,
               by simpa using h4, by simpa using h5⟩
        intro hmem
        simp only [pendingOrigIds, List.filterMap_append] at hmem
        rcases List.mem_append.mp hmem with hx | hx
        · exact h3 (by simpa [pendingOrigIds] using hx)
        · simp at hx
      · simp [hf] at hstep
  | finishOk id f =>
      simp only [stepB] at hstep
      rcases hl : lookupKV s.sessions id with _ | ss
      · simp [hl] at hstep
      · simp only [hl] at hstep
        by_cases hss : ss.status = SessStatus.running ∨ ss.status = SessStatus.paused
        · simp only [if_pos hss] at hstep
          obtain rfl : _ = s' := Option.some.inj hstep
          have htid : t ≠ id := by
            intro h
            subst h
            exact h2 (lookupKV_mem _ _ _ hl)
          refine ⟨by simpa using h1, ?_, by simpa [pendingOrigIds] using h3,
                 by simpa using h4, ?_⟩
          · intro hmem
            simp only [sessionIds, fst_mapVals] at hmem
            exact h2 (by simpa [sessionIds] using hmem)
          · simpa using noSuccessAt_cleanup (noSuccessAt_setKV_ne htid _ _ h5)
        · simp [hss] at hstep
  | finishErr id m =>
      simp only [stepB] at hstep
      rcases hl : lookupKV s.sessions id with _ | ss
      · simp [hl] at hstep
      · simp only [hl] at hstep
        by_cases hss : ss.status = SessStatus.running ∨ ss.status = SessStatus.paused
        · simp only [if_pos hss] at hstep
          obtain rfl : _ = s' := Option.some.inj hstep
          refine ⟨by simpa using h1, ?_, by simpa [pendingOrigIds] using h3,
                 by simpa using h4, ?_⟩
          · intro hmem
            simp only [sessionIds, fst_mapVals] at hmem
            exact h2 (by simpa [sessionIds] using hmem)
          · simpa using noSuccessAt_cleanup (noSuccessAt_setKV_err rfl _ h5)
        · simp [hss] at hstep
  | cleanupDone id =>
      simp only [stepB] at hstep
      rcases hl : lookupKV s.sessions id with _ | ss
      · simp [hl] at hstep
      · simp only [hl] at hstep
        by_cases hc : ss.cleaning = true
        · simp only [if_pos hc] at hstep
          obtain rfl : _ = s' := Option.some.inj hstep
          refine ⟨by simpa using h1, ?_, by simpa [pendingOrigIds] using h3,
                 by simpa using h4, by simpa using h5⟩
          intro hmem
          simp only [sessionIds] at hmem
          exact h2 (mem_fst_removeKV _ _ _ hmem)
        · simp [hc] at hstep
  | loginDetected id =>
      simp only [stepB] at hstep
      by_cases hf : s.flag
      · simp only [if_pos hf] at hstep
        obtain rfl : _ = s' := Option.some.inj hstep
        exact ⟨h1, h2, h3, h4, h5⟩
      · simp only [if_neg hf] at hstep
        rcases hl : lookupKV s.sessions id with _ | trig
        · simp [hl] at hstep
        · simp only [hl] at hstep
          obtain rfl : _ = s' := Option.some.inj hstep
          have htid : t ≠ id := by
            intro h
            subst h
            exact h2 (lookupKV_mem _ _ _ hl)
          refine ⟨by simpa using h1, ?_, ?_, ?_, by simpa using h5⟩
          · intro hmem
            simp only [sessionIds] at hmem
            have := mem_fst_removeKV _ _ _ hmem
            simp only [pauseOthersB] at this
            rw [fst_mapVals] at this
            exact h2 this
          · intro hmem
            simp only [pendingOrigIds, List.filterMap] at hmem
            simp at hmem
            exact htid hmem
          · intro hcy
            simp only [Option.some.injEq] at hcy
            exact htid (by simpa using hcy.symm)
  | modalLogin =>
      simp only [stepB] at hstep
      by_cases hw : s.awaiting
      · simp only [if_pos hw] at hstep
        obtain rfl : _ = s' := Option.some.inj hstep
        exact ⟨by simpa using h1, by simpa [sessionIds] using h2,
               by simpa [pendingOrigIds] using h3, by simpa using h4,
               by simpa using h5⟩
      · simp [hw] at hstep
  | modalCancel =>
      simp only [stepB] at hstep
      by_cases hw : s.awaiting
      · simp only [if_pos hw] at hstep
        obtain rfl : _ = s' := Option.some.inj hstep
        refine ⟨by simpa using h1, by simpa [sessionIds] using h2, ?_, ?_, ?_⟩
        · intro hmem
          simp [pendingOrigIds] at hmem
        · intro hcy
          simp at hcy
        · simpa using noSuccessAt_storeTrigErrR s.cycleTrigger s.completedR _ h5
      · simp [hw] at hstep
  | authFail m =>
      simp only [stepB] at hstep
      by_cases hb : s.authBrowsers = 1
      · simp only [if_pos hb] at hstep
        obtain rfl : _ = s' := Option.some.inj hstep
        refine ⟨by simpa using h1, by simpa [sessionIds] using h2,
               by simpa [pendingOrigIds] using h3, ?_, ?_⟩
        · intro hcy
          simp at hcy
        · simpa using noSuccessAt_storeTrigErrR s.cycleTrigger s.completedR _ h5
      · simp [hb] at hstep
  | authSuccess outs =>
      simp only [stepB] at hstep
      by_cases hb : s.authBrowsers = 1
      · simp only [if_pos hb] at hstep
        obtain rfl : _ = s' := Option.some.inj hstep
        obtain ⟨f1, f2, f3, f4, f5, f6, f7, f8⟩ := authSuccessState_fields s outs
        obtain ⟨g1, g2, g3, g4, g5, g6, g7, g8⟩ :=
          retryFoldB_fields s.pending
            { s with authBrowsers := 0, modalsOpen := s.modalsOpen - 1,
                     flag := false, pending := [] } outs
        refine ⟨?_, ?_, ?_, ?_, ?_⟩
        · rw [f7]
          omega
        · intro hmem
          simp only [sessionIds, f8, resumePausedB] at hmem
          rw [fst_mapVals] at hmem
          exact h2 hmem
        · intro hmem
          simp [pendingOrigIds, f5] at hmem
        · rw [f6]
          simp
        · have hfold : NoSuccessAt t
              ((s.pending.foldl retryOneB
                ({ s with authBrowsers := 0, modalsOpen := s.modalsOpen - 1,
                          flag := false, pending := [] }, outs)).1).completedR := by
            apply retryFoldB_safe t s.pending _ outs
            · simpa using h1
            · exact h3
            · simpa using h5
          have htrig : (s.pending.foldl retryOneB
              ({ s with authBrowsers := 0, modalsOpen := s.modalsOpen - 1,
                        flag := false, pending := [] }, outs)).1.cycleTrigger
              ≠ some t := by
            rw [g7]
            simpa using h4
          show NoSuccessAt t (authSuccessState s outs).completedR
          unfold authSuccessState
          simpa using noSuccessAt_restoreTriggerR _ _ htrig hfold
      · simp [hb] at hstep

theorem safeId_run {t : Nat} {s : BState} (hs : SafeId t s) (es : List BEvent) :
    SafeId t (bRun s es) := by
  induction es generalizing s with
  | nil => exact hs
  | cons e rest ih =>
      simp only [bRun]
      rcases hst : stepB s e with _ | s2
      · simpa [hst] using ih hs
      · simpa [hst] using ih (safeId_step hs hst)

/-! ## Claim theorems -/

theorem lookupKV_append_some {α : Type} (l l2 : List (Nat × α)) (i : Nat) (v : α)
    (h : lookupKV l i = some v) : lookupKV (l ++ l2) i = some v := by
  induction l with
  | nil => simp [lookupKV] at h
  | cons p rest ih =>
      obtain ⟨a, b⟩ := p
      by_cases ha : a = i
      · simpa [lookupKV, ha] using h
      · simp only [List.cons_append, lookupKV, if_neg ha] at h ⊢
        exact ih h

theorem lookupKV_append_none {α : Type} (l l2 : List (Nat × α)) (i : Nat)
    (h : lookupKV l i = none) : lookupKV (l ++ l2) i = lookupKV l2 i := by
  induction l with
  | nil => rfl
  | cons p rest ih =>
      obtain ⟨a, b⟩ := p
      by_cases ha : a = i
      · simp [lookupKV, ha] at h
      · simp only [List.cons_append, lookupKV, if_neg ha] at h ⊢
        exact ih h

/-- C7: the completed-results cache never exceeds `MAX_COMPLETED_RESULTS`
after cleanup runs; storing a terminal result and running the cleanup rebuilds
the cache as the insertion-order prefix kept while the running count is
strictly below the cap, so its size stays within the cap. -/
theorem c7_results_cache_cap (entries : List (Nat × AResult)) (k : Nat)
    (v : AResult) :
    (cleanupCompletedResults entries).length ≤ MAX_COMPLETED_RESULTS ∧
    cleanupCompletedResults (setKV entries k v)
      = (setKV entries k v).take (MAX_COMPLETED_RESULTS - 1) ∧
    (cleanupCompletedResults (setKV entries k v)).length
      ≤ MAX_COMPLETED_RESULTS := by
  refine ⟨?_, cleanupCompletedResults_eq_take _, ?_⟩
  · have := cleanupCompletedResults_length entries
    omega
  · have := cleanupCompletedResults_length (setKV entries k v)
    omega

/-- C8: `getAutomationResult` is a total lookup that never throws: it reads
the live-session map first (returning its result when set), then the
completed-results cache, and answers `none` for an id in neither; being a
pure function of the state, it performs no blocking wait and mutates
nothing. -/
theorem c8_get_result_total (s : AState) (id : Nat) :
    (lookupKV s.running id = none → lookupKV s.completedResults id = none →
      getAutomationResultA s id = none) ∧
    (∀ a r, lookupKV s.running id = some a → a.result = some r →
      getAutomationResultA s id = some r) ∧
    (∀ r, getAutomationResultA s id = some r →
      (lookupKV s.running id).bind ASession.result = some r ∨
        lookupKV s.completedResults id = some r) := by
  refine ⟨?_, ?_, ?_⟩
  · intro h1 h2
    unfold getAutomationResultA
    rw [h1]
    exact h2
  · intro a r h1 h2
    unfold getAutomationResultA
    rw [h1]
    show (match a.result with
          | some r => some r
          | none => lookupKV s.completedResults id) = some r
    rw [h2]
  · intro r h
    unfold getAutomationResultA at h
    rcases hr : lookupKV s.running id with _ | a
    · rw [hr] at h
      right
      exact h
    · rw [hr] at h
      replace h : (match a.result with
          | some rr => some rr
          | none => lookupKV s.completedResults id) = some r := h
      rcases ha : a.result with _ | r2
      · rw [ha] at h
        right
        exact h
      · rw [ha] at h
        left
        simpa [ha] using h

theorem printUnixLoop_status (env : PrintEnv) (i k : Nat) :
    (printUnixLoop env i k).status = 200 := by
  induction k generalizing i with
  | zero => rfl
  | succ n ih =>
      unfold printUnixLoop
      rcases env.unixExec i with st | m
      · rcases st with _ | e
        · exact ih (i + 1)
        · rfl
      · rfl

/-- C9: the `/print-label` endpoint answers `400` exactly for a request with
a missing (falsy) `fnsku`, `sku` or `asin`; every other request is answered
with HTTP `200`, even when label generation or printing fails, the failure
being carried as `success:false` in the body. -/
theorem c9_print_label_status (b : PrintLabelBody) (env : PrintEnv) :
    (missingPrintParams b = true →
      printLabelHandler b env =
        { status := 400, success := false,
          error := some "Missing required parameters (fnsku, sku, asin)" }) ∧
    (missingPrintParams b = false → (printLabelHandler b env).status = 200) ∧
    ((printLabelHandler b env).status = 400 ↔ missingPrintParams b = true) ∧
    (missingPrintParams b = false → ∀ m, env.generateOutcome = Except.error m →
      printLabelHandler b env = { status := 200, success := false, error := some m }) ∧
    (missingPrintParams b = false → ∀ path m,
      env.generateOutcome = Except.ok path → env.isWin32 = true →
      env.winPrint = Except.error m →
      printLabelHandler b env = { status := 200, success := false, error := some m }) ∧
    (missingPrintParams b = false → ∀ path e q,
      env.generateOutcome = Except.ok path → env.isWin32 = false →
      b.quantity.getD 1 = q + 1 → env.unixExec 1 = ExecOutcome.ok (some e) →
      printLabelHandler b env = { status := 200, success := false, error := none }) := by
  refine ⟨?_, ?_, ?_, ?_, ?_, ?_⟩
  · intro hm
    unfold printLabelHandler
    rw [hm]
    rfl
  · intro hm
    unfold printLabelHandler
    rw [hm]
    simp only [Bool.false_eq_true, if_false]
    rcases hg : env.generateOutcome with m | path
    · rfl
    · by_cases hw : env.isWin32
      · rw [if_pos hw]
        rcases hwp : env.winPrint with m | u
        · rfl
        · rfl
      · rw [if_neg hw]
        exact printUnixLoop_status env 1 (b.quantity.getD 1)
  · constructor
    · intro h400
      by_cases hm : missingPrintParams b
      · exact hm
      · exfalso
        unfold printLabelHandler at h400
        rw [Bool.not_eq_true] at hm
        rw [hm] at h400
        simp only [Bool.false_eq_true, if_false] at h400
        rcases hg : env.generateOutcome with m | path
        · rw [hg] at h400
          simp at h400
        · rw [hg] at h400
          by_cases hw : env.isWin32
          · rw [if_pos hw] at h400
            rcases hwp : env.winPrint with m | u
            · rw [hwp] at h400
              simp at h400
            · rw [hwp] at h400
              simp at h400
          · rw [if_neg hw] at h400
            have h200 := printUnixLoop_status env 1 (b.quantity.getD 1)
            rw [h200] at h400
            simp at h400
    · intro hm
      unfold printLabelHandler
      rw [hm]
      rfl
  · intro hm m hg
    unfold printLabelHandler
    rw [hm, hg]
    rfl
  · intro hm path m hg hw hwp
    unfold printLabelHandler
    rw [hm, hg]
    simp only [Bool.false_eq_true, if_false]
    rw [if_pos hw, hwp]
  · intro hm path e q hg hw hq hx
    unfold printLabelHandler
    rw [hm, hg]
    simp only [Bool.false_eq_true, if_false]
    rw [if_neg (by simp [hw]), hq]
    unfold printUnixLoop
    rw [hx]

/-- C9 witness: a request with all required fields whose label generation
fails still receives HTTP 200 with `success:false`; a request missing `sku`
receives 400. -/
theorem c9_print_label_status_witness :
    missingPrintParams { fnsku := some "X0ABC123XY", sku := some "S", asin := some "A" } = false ∧
    (printLabelHandler { fnsku := some "X0ABC123XY", sku := some "S", asin := some "A" } { generateOutcome := Except.error "template failure" }).status = 200 := by
  refine ⟨by decide, ?_⟩
  exact (c9_print_label_status { fnsku := some "X0ABC123XY", sku := some "S", asin := some "A" } { generateOutcome := Except.error "template failure" }).2.1 (by decide)

/-- C8 witness at a concrete state: an id in neither map answers `none`; a
live result is preferred. -/
theorem c8_get_result_total_witness :
    getAutomationResultA { completedResults := [(0, { fnsku := some "X0ABC123XY" })] } 5
      = none := by
  exact (c8_get_result_total
    { completedResults := [(0, { fnsku := some "X0ABC123XY" })] } 5).1
    (by decide) (by decide)

/-- C10: a `startAutomation` call made while a re-authentication cycle is in
flight only appends the request to the pending queue and answers the literal
`'pending-auth'`: no id is drawn, no browser launched, no session created,
and neither the live map nor the results cache gains any entry. -/
theorem c10_pending_auth (env : Nat → AttemptEnv) (fuel idx : Nat) (s : AState)
    (req : Request) (h : s.isReauthenticating = true) :
    startAutomationA env fuel idx s req =
      ({ s with pending := s.pending ++ [(none, req)] },
        StartOutcome.ok StartRet.pendingAuth) ∧
    (startAutomationA env fuel idx s req).1.running = s.running ∧
    (startAutomationA env fuel idx s req).1.completedResults = s.completedResults ∧
    (startAutomationA env fuel idx s req).1.browsersLaunched = s.browsersLaunched ∧
    (startAutomationA env fuel idx s req).1.sessionsCreated = s.sessionsCreated ∧
    (startAutomationA env fuel idx s req).1.nextId = s.nextId := by
  unfold startAutomationA
  rw [h]
  simp

/-- C10 witness at a concrete re-authenticating state. -/
theorem c10_pending_auth_witness :
    startAutomationA (fun _ => {}) 1 0 { isReauthenticating := true } { type := ReqType.createListing, params := some { sku := some "TEST_1", asin := some "0140268308", price := some 999 } } =
      ({ isReauthenticating := true, pending := [(none, { type := ReqType.createListing, params := some { sku := some "TEST_1", asin := some "0140268308", price := some 999 } })] },
       StartOutcome.ok StartRet.pendingAuth) := by
  exact (c10_pending_auth (fun _ => {}) 1 0 { isReauthenticating := true } { type := ReqType.createListing, params := some { sku := some "TEST_1", asin := some "0140268308", price := some 999 } } rfl).1

/-- C3: at most one re-authentication cycle is in flight at a time.  In every
reachable manager state at most one re-authentication modal window and at
most one auth browser exist, and while the `isReauthenticating` flag is set a
session that detects a login wall takes the waiting branch of
`handleLoginRequired`: the state is left unchanged — in particular no second
modal and no second auth browser is created. -/
theorem c3_single_reauth_cycle (s : BState) (h : ReachableB s) :
    s.modalsOpen ≤ 1 ∧ s.authBrowsers ≤ 1 ∧
    (s.flag = true → ∀ i, stepB s (BEvent.loginDetected i) = some s) := by
  obtain ⟨h1, h2, _, _, _, _, _⟩ := invB_reachable h
  refine ⟨h1, h2, ?_⟩
  intro hf i
  simp [stepB, hf]

/-- C3 witness: a mid-cycle reachable state (flag set, modal open) satisfies
the invariant, and a login detection there leaves the state unchanged. -/
theorem c3_single_reauth_cycle_witness :
    (bRun {} [BEvent.startAuto { sku := some "S1", asin := some "A1", price := some 999 }, BEvent.loginDetected 0]).modalsOpen ≤ 1 ∧
    (bRun {} [BEvent.startAuto { sku := some "S1", asin := some "A1", price := some 999 }, BEvent.loginDetected 0]).authBrowsers ≤ 1 ∧
    ((bRun {} [BEvent.startAuto { sku := some "S1", asin := some "A1", price := some 999 }, BEvent.loginDetected 0]).flag = true →
      ∀ i, stepB (bRun {} [BEvent.startAuto { sku := some "S1", asin := some "A1", price := some 999 }, BEvent.loginDetected 0]) (BEvent.loginDetected i)
        = some (bRun {} [BEvent.startAuto { sku := some "S1", asin := some "A1", price := some 999 }, BEvent.loginDetected 0])) := by
  exact c3_single_reauth_cycle _ (reachable_bRun ReachableB.init _)

/-- C6 counterexample: a session whose terminal status `completed` has been
set but whose browser cleanup has not yet finished (it is still in the live
map) is moved back to `paused` by the pause sweep of a re-authentication
cycle triggered by another session — the manager does re-enter a
non-terminal status from a terminal one. -/
theorem c6_counterexample :
    statusOfB (bRun {} [BEvent.startAuto { sku := some "S1", asin := some "A1", price := some 999 }, BEvent.startAuto { sku := some "S2", asin := some "A2", price := some 500 }, BEvent.finishOk 0 "X0AAAAAAAA"]) 0
      = some SessStatus.completed ∧
    statusOfB (bRun {} [BEvent.startAuto { sku := some "S1", asin := some "A1", price := some 999 }, BEvent.startAuto { sku := some "S2", asin := some "A2", price := some 500 }, BEvent.finishOk 0 "X0AAAAAAAA", BEvent.loginDetected 1]) 0
      = some SessStatus.paused := by
  constructor
  · rfl
  · rfl

/-- C6 as amended: a terminal status (`completed`/`error`) is never changed
back to `running`; it can only stay, disappear with the session's removal
from the live map, or — the one exception the counterexample exhibits — be
set to `paused` by the re-authentication pause sweep, which pauses every
other live session unconditionally; and `paused` is only ever entered by a
step that leaves the re-authentication flag set. -/
theorem lookupKV_mapVals_inv {α : Type} {g : Nat → α → α} {l : List (Nat × α)}
    {i : Nat} {b : α} (h : lookupKV (mapVals g l) i = some b) :
    ∃ a, lookupKV l i = some a ∧ g i a = b := by
  rw [lookupKV_mapVals] at h
  cases hl : lookupKV l i with
  | none => rw [hl] at h; cases h
  | some a =>
      rw [hl] at h
      exact ⟨a, rfl, Option.some.inj h⟩

theorem lookupKV_append_inv {α : Type} {l l2 : List (Nat × α)} {i : Nat}
    {v : α} (h : lookupKV (l ++ l2) i = some v) :
    lookupKV l i = some v ∨ (lookupKV l i = none ∧ lookupKV l2 i = some v) := by
  cases hl : lookupKV l i with
  | none =>
      right
      rw [lookupKV_append_none _ _ _ hl] at h
      exact ⟨rfl, h⟩
  | some a =>
      left
      rw [lookupKV_append_some _ _ _ _ hl] at h
      exact h

theorem statusOfB_elim {s : BState} {i : Nat} {st : SessStatus}
    (h : statusOfB s i = some st) :
    ∃ a, lookupKV s.sessions i = some a ∧ a.status = st := by
  unfold statusOfB at h
  cases hl : lookupKV s.sessions i with
  | none => rw [hl] at h; cases h
  | some a =>
      rw [hl] at h
      exact ⟨a, rfl, Option.some.inj h⟩

theorem statusOfB_intro {s : BState} {i : Nat} {a : BSession}
    (hl : lookupKV s.sessions i = some a) : statusOfB s i = some a.status := by
  unfold statusOfB
  rw [hl]
  rfl

theorem c6_terminal_statuses (s s' : BState) (e : BEvent) (i : Nat)
    (hstep : stepB s e = some s') :
    (∀ st, statusOfB s i = some st →
      (st = SessStatus.completed ∨ st = SessStatus.error) →
      statusOfB s' i = some st ∨ statusOfB s' i = none ∨
        (statusOfB s' i = some SessStatus.paused ∧
          (∃ j, e = BEvent.loginDetected j ∧ s.flag = false))) ∧
    (statusOfB s i ≠ some SessStatus.paused →
      statusOfB s' i = some SessStatus.paused → s'.flag = true) := by
  cases e with
  | startAuto p =>
      simp only [stepB] at hstep
      by_cases hf : s.flag
      · simp [hf] at hstep
      · simp only [if_neg hf] at hstep
        obtain rfl : _ = s' := Option.some.inj hstep
        constructor
        · intro st hst hterm
          left
          obtain ⟨a, hli, ha⟩ := statusOfB_elim hst
          have : lookupKV (s.sessions ++
              [(s.nextId, { status := SessStatus.running, details := p })]) i
              = some a := lookupKV_append_some _ _ _ _ hli
          rw [statusOfB_intro this, ha]
        · intro hne hpost
          exfalso
          obtain ⟨a, hli, ha⟩ := statusOfB_elim hpost
          rcases lookupKV_append_inv hli with hx | ⟨hx, hy⟩
          · exact hne (by rw [statusOfB_intro hx, ha])
          · simp only [lookupKV] at hy
            by_cases hid : s.nextId = i
            · rw [if_pos hid] at hy
              obtain rfl : _ = a := Option.some.inj hy
              simp at ha
            · rw [if_neg hid] at hy
              cases hy
  | queueReq p =>
      simp only [stepB] at hstep
      by_cases hf : s.flag
      · simp only [if_pos hf] at hstep
        obtain rfl : _ = s' := Option.some.inj hstep
        exact ⟨fun st hst hterm => Or.inl hst, fun hne hpost => absurd hpost hne⟩
      · simp [hf] at hstep
  | finishOk id f =>
      simp only [stepB] at hstep
      rcases hl : lookupKV s.sessions id with _ | ss
      · simp [hl] at hstep
      · simp only [hl] at hstep
        by_cases hss : ss.status = SessStatus.running ∨ ss.status = SessStatus.paused
        · simp only [if_pos hss] at hstep
          obtain rfl : _ = s' := Option.some.inj hstep
          constructor
          · intro st hst hterm
            left
            obtain ⟨a, hli, ha⟩ := statusOfB_elim hst
            have hii : ¬ i = id := by
              intro hii
              subst hii
              rw [hli] at hl
              obtain rfl : a = ss := Option.some.inj hl
              rcases hterm with h | h <;> rw [h] at ha <;> rw [ha] at hss <;>
                simp at hss
            have : lookupKV (mapVals (fun j a =>
                if j = id then { a with status := SessStatus.completed, cleaning := true }
                else a) s.sessions) i
                = some a := by
              rw [lookupKV_mapVals, hli]
              simp [hii]
            rw [statusOfB_intro this, ha]
          · intro hne hpost
            exfalso
            obtain ⟨a, hli, ha⟩ := statusOfB_elim hpost
            obtain ⟨a0, hli0, hg⟩ := lookupKV_mapVals_inv (show
              lookupKV (mapVals (fun j a =>
                if j = id then { a with status := SessStatus.completed, cleaning := true }
                else a) s.sessions) i = some a from hli)
            by_cases hii : i = id
            · rw [if_pos hii] at hg
              rw [← hg] at ha
              simp at ha
            · rw [if_neg hii] at hg
              subst hg
              exact hne (by rw [statusOfB_intro hli0, ha])
        · simp [hss] at hstep
  | finishErr id m =>
      simp only [stepB] at hstep
      rcases hl : lookupKV s.sessions id with _ | ss
      · simp [hl] at hstep
      · simp only [hl] at hstep
        by_cases hss : ss.status = SessStatus.running ∨ ss.status = SessStatus.paused
        · simp only [if_pos hss] at hstep
          obtain rfl : _ = s' := Option.some.inj hstep
          constructor
          · intro st hst hterm
            left
            obtain ⟨a, hli, ha⟩ := statusOfB_elim hst
            have hii : ¬ i = id := by
              intro hii
              subst hii
              rw [hli] at hl
              obtain rfl : a = ss := Option.some.inj hl
              rcases hterm with h | h <;> rw [h] at ha <;> rw [ha] at hss <;>
                simp at hss
            have : lookupKV (mapVals (fun j a =>
                if j = id then { a with status := SessStatus.error, cleaning := true }
                else a) s.sessions) i
                = some a := by
              rw [lookupKV_mapVals, hli]
              simp [hii]
            rw [statusOfB_intro this, ha]
          · intro hne hpost
            exfalso
            obtain ⟨a, hli, ha⟩ := statusOfB_elim hpost
            obtain ⟨a0, hli0, hg⟩ := lookupKV_mapVals_inv (show
              lookupKV (mapVals (fun j a =>
                if j = id then { a with status := SessStatus.error, cleaning := true }
                else a) s.sessions) i = some a from hli)
            by_cases hii : i = id
            · rw [if_pos hii] at hg
              rw [← hg] at ha
              simp at ha
            · rw [if_neg hii] at hg
              subst hg
              exact hne (by rw [statusOfB_intro hli0, ha])
        · simp [hss] at hstep
  | cleanupDone id =>
      simp only [stepB] at hstep
      rcases hl : lookupKV s.sessions id with _ | ss
      · simp [hl] at hstep
      · simp only [hl] at hstep
        by_cases hc : ss.cleaning = true
        · simp only [if_pos hc] at hstep
          obtain rfl : _ = s' := Option.some.inj hstep
          constructor
          · intro st hst hterm
            obtain ⟨a, hli, ha⟩ := statusOfB_elim hst
            by_cases hii : i = id
            · subst hii
              right
              left
              unfold statusOfB
              rw [lookupKV_removeKV_self]
              rfl
            · left
              have : lookupKV (removeKV s.sessions id) i = some a := by
                rw [lookupKV_removeKV_ne _ _ _ hii]
                exact hli
              rw [statusOfB_intro this, ha]
          · intro hne hpost
            exfalso
            obtain ⟨a, hli, ha⟩ := statusOfB_elim hpost
            by_cases hii : i = id
            · subst hii
              rw [lookupKV_removeKV_self] at hli
              cases hli
            · rw [lookupKV_removeKV_ne _ _ _ hii] at hli
              exact hne (by rw [statusOfB_intro hli, ha])
        · simp [hc] at hstep
  | loginDetected id =>
      simp only [stepB] at hstep
      by_cases hf : s.flag
      · simp only [if_pos hf] at hstep
        obtain rfl : _ = s' := Option.some.inj hstep
        exact ⟨fun st hst hterm => Or.inl hst, fun hne hpost => absurd hpost hne⟩
      · simp only [if_neg hf] at hstep
        rcases hl : lookupKV s.sessions id with _ | trig
        · simp [hl] at hstep
        · simp only [hl] at hstep
          obtain rfl : _ = s' := Option.some.inj hstep
          constructor
          · intro st hst hterm
            obtain ⟨a, hli, ha⟩ := statusOfB_elim hst
            by_cases hii : i = id
            · subst hii
              right
              left
              unfold statusOfB
              rw [lookupKV_removeKV_self]
              rfl
            · right
              right
              refine ⟨?_, id, rfl, by simpa using hf⟩
              have : lookupKV (removeKV (pauseOthersB id s.sessions) id) i
                  = some { a with status := SessStatus.paused } := by
                rw [lookupKV_removeKV_ne _ _ _ hii]
                unfold pauseOthersB
                rw [lookupKV_mapVals, hli]
                simp [hii]
              rw [statusOfB_intro this]
          · intro hne hpost
            rfl
  | modalLogin =>
      simp only [stepB] at hstep
      by_cases hw : s.awaiting
      · simp only [if_pos hw] at hstep
        obtain rfl : _ = s' := Option.some.inj hstep
        exact ⟨fun st hst hterm => Or.inl hst, fun hne hpost => absurd hpost hne⟩
      · simp [hw] at hstep
  | modalCancel =>
      simp only [stepB] at hstep
      by_cases hw : s.awaiting
      · simp only [if_pos hw] at hstep
        obtain rfl : _ = s' := Option.some.inj hstep
        exact ⟨fun st hst hterm => Or.inl hst, fun hne hpost => absurd hpost hne⟩
      · simp [hw] at hstep
  | authFail m =>
      simp only [stepB] at hstep
      by_cases hb : s.authBrowsers = 1
      · simp only [if_pos hb] at hstep
        obtain rfl : _ = s' := Option.some.inj hstep
        exact ⟨fun st hst hterm => Or.inl hst, fun hne hpost => absurd hpost hne⟩
      · simp [hb] at hstep
  | authSuccess outs =>
      simp only [stepB] at hstep
      by_cases hb : s.authBrowsers = 1
      · simp only [if_pos hb] at hstep
        obtain rfl : _ = s' := Option.some.inj hstep
        obtain ⟨f1, f2, f3, f4, f5, f6, f7, f8⟩ := authSuccessState_fields s outs
        constructor
        · intro st hst hterm
          left
          obtain ⟨a, hli, ha⟩ := statusOfB_elim hst
          have hnp : ¬ a.status = SessStatus.paused := by
            rcases hterm with h | h <;> rw [ha, h] <;> simp
          have : lookupKV (authSuccessState s outs).sessions i = some a := by
            rw [f8]
            unfold resumePausedB
            rw [lookupKV_mapVals, hli]
            simp [hnp]
          rw [statusOfB_intro this, ha]
        · intro hne hpost
          exfalso
          obtain ⟨a, hli, ha⟩ := statusOfB_elim hpost
          rw [f8] at hli
          unfold resumePausedB at hli
          obtain ⟨a0, hli0, hg⟩ := lookupKV_mapVals_inv hli
          by_cases hpa : a0.status = SessStatus.paused
          · rw [if_pos hpa] at hg
            rw [← hg] at ha
            simp at ha
          · rw [if_neg hpa] at hg
            subst hg
            exact hpa (by rw [← ha])
      · simp [hb] at hstep

/-- C6 witness for the amended theorem at a concrete step: a `completed`
session survives a `cleanupDone` step for another id unchanged. -/
theorem c6_terminal_statuses_witness :
    statusOfB (bRun {} [BEvent.startAuto { sku := some "S1" }, BEvent.finishOk 0 "X0AAAAAAAA"]) 0 = some SessStatus.completed ∧
    statusOfB (bRun {} [BEvent.startAuto { sku := some "S1" }, BEvent.finishOk 0 "X0AAAAAAAA", BEvent.cleanupDone 0]) 0 = none := by
  have hstep : stepB (bRun {} [BEvent.startAuto { sku := some "S1" }, BEvent.finishOk 0 "X0AAAAAAAA"]) (BEvent.cleanupDone 0)
      = some (bRun {} [BEvent.startAuto { sku := some "S1" }, BEvent.finishOk 0 "X0AAAAAAAA", BEvent.cleanupDone 0]) := by
    rfl
  have h := (c6_terminal_statuses _ _ (BEvent.cleanupDone 0) 0 hstep).1
    SessStatus.completed (by rfl) (Or.inl rfl)
  refine ⟨by rfl, ?_⟩
  rcases h with h | h | h
  · cases h
  · exact h
  · cases h.1

/-- C4 counterexample: a request queued while the re-authentication cycle was
in flight (`startAutomation` answered `'pending-auth'`) is retried by the
cycle's completion alongside the captured triggering request — two fresh
sessions (ids 1 and 2) are created and two results stored, so it is not the
case that exactly the one captured triggering request is retried. -/
theorem c4_counterexample :
    (bRun {} [BEvent.startAuto { sku := some "S1", asin := some "A1", price := some 999 }, BEvent.loginDetected 0, BEvent.queueReq { sku := some "S2", asin := some "A2", price := some 500 }, BEvent.modalLogin]).pending.length = 2 ∧
    (bRun {} [BEvent.startAuto { sku := some "S1", asin := some "A1", price := some 999 }, BEvent.loginDetected 0, BEvent.queueReq { sku := some "S2", asin := some "A2", price := some 500 }, BEvent.modalLogin, BEvent.authSuccess [{ fnsku := some "X0AAAAAAAA" }, { fnsku := some "X0BBBBBBBB" }]]).nextId = 3 ∧
    lookupKV (bRun {} [BEvent.startAuto { sku := some "S1", asin := some "A1", price := some 999 }, BEvent.loginDetected 0, BEvent.queueReq { sku := some "S2", asin := some "A2", price := some 500 }, BEvent.modalLogin, BEvent.authSuccess [{ fnsku := some "X0AAAAAAAA" }, { fnsku := some "X0BBBBBBBB" }]]).completedR 2
      = some { fnsku := some "X0BBBBBBBB" } := by
  refine ⟨rfl, rfl, rfl⟩

/-- C4 as amended: when a re-authentication cycle completes successfully,
every request in the pending queue at that moment — the captured triggering
request plus any requests queued while the cycle was in flight — is retried,
each with a freshly drawn session id; paused sessions are not retried (the
set of live session ids is unchanged), and every session that was `paused`
transitions back to `running`; the queue ends empty and the flag cleared. -/
theorem c4_retry_and_resume (s s' : BState) (outs : List AResult)
    (hstep : stepB s (BEvent.authSuccess outs) = some s') :
    s'.nextId = s.nextId + s.pending.length ∧
    sessionIds s' = sessionIds s ∧
    (∀ i, statusOfB s i = some SessStatus.paused →
      statusOfB s' i = some SessStatus.running) ∧
    s'.pending = [] ∧
    s'.flag = false := by
  simp only [stepB] at hstep
  by_cases hb : s.authBrowsers = 1
  · simp only [if_pos hb] at hstep
    obtain rfl : _ = s' := Option.some.inj hstep
    obtain ⟨f1, f2, f3, f4, f5, f6, f7, f8⟩ := authSuccessState_fields s outs
    refine ⟨f7, ?_, ?_, f5, f4⟩
    · unfold sessionIds
      rw [f8]
      unfold resumePausedB
      rw [fst_mapVals]
    · intro i hst
      obtain ⟨a, hli, ha⟩ := statusOfB_elim hst
      have : lookupKV (authSuccessState s outs).sessions i
          = some { a with status := SessStatus.running } := by
        rw [f8]
        unfold resumePausedB
        rw [lookupKV_mapVals, hli]
        simp [ha]
      rw [statusOfB_intro this]
  · simp [hb] at hstep

/-- C4 witness: completing a cycle from a concrete mid-cycle state with one
captured request and one paused session retries the request with a fresh id
and resumes the paused session. -/
theorem c4_retry_and_resume_witness :
    (bRun {} [BEvent.startAuto { sku := some "S1", asin := some "A1", price := some 999 }, BEvent.startAuto { sku := some "S2", asin := some "A2", price := some 500 }, BEvent.loginDetected 0, BEvent.modalLogin, BEvent.authSuccess [{ fnsku := some "X0AAAAAAAA" }]]).nextId = 3 ∧
    statusOfB (bRun {} [BEvent.startAuto { sku := some "S1", asin := some "A1", price := some 999 }, BEvent.startAuto { sku := some "S2", asin := some "A2", price := some 500 }, BEvent.loginDetected 0, BEvent.modalLogin, BEvent.authSuccess [{ fnsku := some "X0AAAAAAAA" }]]) 1
      = some SessStatus.running ∧
    (bRun {} [BEvent.startAuto { sku := some "S1", asin := some "A1", price := some 999 }, BEvent.startAuto { sku := some "S2", asin := some "A2", price := some 500 }, BEvent.loginDetected 0, BEvent.modalLogin, BEvent.authSuccess [{ fnsku := some "X0AAAAAAAA" }]]).pending = [] := by
  have h := c4_retry_and_resume
    (bRun {} [BEvent.startAuto { sku := some "S1", asin := some "A1", price := some 999 }, BEvent.startAuto { sku := some "S2", asin := some "A2", price := some 500 }, BEvent.loginDetected 0, BEvent.modalLogin])
    (bRun {} [BEvent.startAuto { sku := some "S1", asin := some "A1", price := some 999 }, BEvent.startAuto { sku := some "S2", asin := some "A2", price := some 500 }, BEvent.loginDetected 0, BEvent.modalLogin, BEvent.authSuccess [{ fnsku := some "X0AAAAAAAA" }]])
    [{ fnsku := some "X0AAAAAAAA" }] rfl
  refine ⟨?_, ?_, h.2.2.2.1⟩
  · rw [h.1]
    rfl
  · exact h.2.2.1 1 rfl

/-- C1 counterexample: for a `createListing` request with no `sku`, the claim
fails on three counts: `startAutomation` resolves with the generated session
id instead of rejecting, a browser is launched (`browsersLaunched = 1`) and a
session is created (`sessionsCreated = 1`) before the missing-parameter check
runs inside `handleCreateListing`; the error only surfaces as the session's
stored error result. -/
theorem c1_counterexample :
    (startAutomationA (fun _ => {}) 1 0 {} { type := ReqType.createListing, params := some { asin := some "0140268308", price := some 999 } }).2
      = StartOutcome.ok (StartRet.sessionId 0) ∧
    (startAutomationA (fun _ => {}) 1 0 {} { type := ReqType.createListing, params := some { asin := some "0140268308", price := some 999 } }).1.browsersLaunched = 1 ∧
    (startAutomationA (fun _ => {}) 1 0 {} { type := ReqType.createListing, params := some { asin := some "0140268308", price := some 999 } }).1.sessionsCreated = 1 ∧
    lookupKV (startAutomationA (fun _ => {}) 1 0 {} { type := ReqType.createListing, params := some { asin := some "0140268308", price := some 999 } }).1.completedResults 0
      = some { error := some "Missing required parameters for listing creation" } := by
  refine ⟨rfl, rfl, rfl, rfl⟩

/-- C1 as amended: a `createListing` request whose `sku`, `price` or product
id is missing (falsy) fails with the error
`'Missing required parameters for listing creation'` before any portal
navigation — but only after a browser has been launched and a session
created, because the check runs inside `handleCreateListing`; the session
terminates with that error result (stored in the cache, the session removed
from the live map) and `startAutomation` resolves with the session id rather
than rejecting. -/
theorem c1_missing_params (env : Nat → AttemptEnv) (fuel idx : Nat) (s : AState)
    (prms : Option Params)
    (hflag : s.isReauthenticating = false)
    (hmiss : missingListingParams prms = true)
    (hlaunch : (env idx).launchError = none)
    (hlen : s.completedResults.length < MAX_COMPLETED_RESULTS - 1) :
    (startAutomationA env (fuel + 1) idx s { type := ReqType.createListing, params := prms }).2
      = StartOutcome.ok (StartRet.sessionId s.nextId) ∧
    (startAutomationA env (fuel + 1) idx s { type := ReqType.createListing, params := prms }).1.browsersLaunched
      = s.browsersLaunched + 1 ∧
    (startAutomationA env (fuel + 1) idx s { type := ReqType.createListing, params := prms }).1.sessionsCreated
      = s.sessionsCreated + 1 ∧
    (startAutomationA env (fuel + 1) idx s { type := ReqType.createListing, params := prms }).1.navigations
      = s.navigations ∧
    lookupKV (startAutomationA env (fuel + 1) idx s { type := ReqType.createListing, params := prms }).1.completedResults s.nextId
      = some { error := some "Missing required parameters for listing creation" } ∧
    lookupKV (startAutomationA env (fuel + 1) idx s { type := ReqType.createListing, params := prms }).1.running s.nextId
      = none := by
  have hcl : ∀ v : AResult,
      cleanupCompletedResults (setKV s.completedResults s.nextId v)
        = setKV s.completedResults s.nextId v := by
    intro v
    apply cleanup_of_short
    have := setKV_length s.completedResults s.nextId v
    omega
  simp [startAutomationA, hflag, createAutomationA, hlaunch, runAutomationA,
    runAutomationBody, handleCreateListingA, hmiss, cleanupAutomationA,
    lookupKV_mapVals, lookupKV_setKV_self, hcl, lookupKV_removeKV_self]

/-- C1 witness for the amended theorem: a concrete request with no `sku`
against the empty manager state. -/
theorem c1_missing_params_witness :
    (startAutomationA (fun _ => {}) 1 0 {} { type := ReqType.createListing, params := some { asin := some "B00ABCDEF", price := some 1299 } }).2
      = StartOutcome.ok (StartRet.sessionId 0) ∧
    (startAutomationA (fun _ => {}) 1 0 {} { type := ReqType.createListing, params := some { asin := some "B00ABCDEF", price := some 1299 } }).1.browsersLaunched = 0 + 1 ∧
    (startAutomationA (fun _ => {}) 1 0 {} { type := ReqType.createListing, params := some { asin := some "B00ABCDEF", price := some 1299 } }).1.sessionsCreated = 0 + 1 ∧
    (startAutomationA (fun _ => {}) 1 0 {} { type := ReqType.createListing, params := some { asin := some "B00ABCDEF", price := some 1299 } }).1.navigations = 0 ∧
    lookupKV (startAutomationA (fun _ => {}) 1 0 {} { type := ReqType.createListing, params := some { asin := some "B00ABCDEF", price := some 1299 } }).1.completedResults 0
      = some { error := some "Missing required parameters for listing creation" } ∧
    lookupKV (startAutomationA (fun _ => {}) 1 0 {} { type := ReqType.createListing, params := some { asin := some "B00ABCDEF", price := some 1299 } }).1.running 0
      = none := by
  exact c1_missing_params (fun _ => {}) 0 0 {}
    (some { asin := some "B00ABCDEF", price := some 1299 }) rfl (by decide) rfl
    (by decide)

theorem fnskuAt_length {cs m : List Char} (h : fnskuAt cs = some m) :
    m.length = 10 := by
  unfold fnskuAt at h
  split at h
  · rename_i rest
    by_cases hg : ((rest.take 8).length == 8 && (rest.take 8).all validFnskuChar) = true
    · simp only [if_pos hg] at h
      obtain rfl : _ = m := Option.some.inj h
      simp only [Bool.and_eq_true, beq_iff_eq] at hg
      simp [hg.1]
    · simp only [if_neg hg] at h
      cases h
  · cases h

theorem fnskuScan_length {cs m : List Char} (h : fnskuScan cs = some m) :
    m.length = 10 := by
  induction cs with
  | nil => simp [fnskuScan] at h
  | cons c rest ih =>
      unfold fnskuScan at h
      cases hat : fnskuAt (c :: rest) with
      | some mm =>
          rw [hat] at h
          obtain rfl : mm = m := Option.some.inj h
          exact fnskuAt_length hat
      | none =>
          rw [hat] at h
          exact ih h

theorem fnskuMatch_length {t f : String} (h : fnskuMatch t = some f) :
    f.length = 10 := by
  unfold fnskuMatch at h
  cases hs : fnskuScan t.data with
  | none => rw [hs] at h; cases h
  | some m =>
      rw [hs] at h
      obtain rfl : m.asString = f := Option.some.inj h
      have hl := fnskuScan_length hs
      have hms : m.asString.length = m.length := rfl
      rw [hms, hl]

/-- C2 counterexample: a session whose portal page yields the FNSKU text
`"FNSKU: X0ABC123XY"` — which contains the match `X0ABC123XY` — still ends
with an error result when one of the post-extraction prep/save interactions
throws (the `catch` of `handleCreateListing` overwrites the already-extracted
success with the error), so the claim that every such session's result
carries the matched substring is false. -/
theorem c2_counterexample :
    fnskuMatch "FNSKU: X0ABC123XY" = some "X0ABC123XY" ∧
    (startAutomationA (fun _ => ({ fnskuText := some "FNSKU: X0ABC123XY", postStepsError := some "locator not found" } : AttemptEnv)) 1 0 {} { type := ReqType.createListing, params := some { sku := some "TEST_1", asin := some "0140268308", price := some 999 } }).2
      = StartOutcome.ok (StartRet.sessionId 0) ∧
    lookupKV (startAutomationA (fun _ => ({ fnskuText := some "FNSKU: X0ABC123XY", postStepsError := some "locator not found" } : AttemptEnv)) 1 0 {} { type := ReqType.createListing, params := some { sku := some "TEST_1", asin := some "0140268308", price := some 999 } }).1.completedResults 0
      = some { error := some "locator not found" } := by
  refine ⟨by decide, rfl, rfl⟩

/-- C2 as amended: for a `createListing` session that reaches FNSKU
extraction (valid parameters, no login wall, no failure before extraction):
if the page's fnsku text contains a match of `X0[A-Z0-9]{8}` and the
post-extraction steps succeed, the session's result is exactly the leftmost
matched substring; if the text contains no match the session ends with the
error result `'Could not extract valid FNSKU from page'`; if a
post-extraction step throws, the session ends with that error instead; and a
success result never carries an empty or absent fnsku — its fnsku is always
the 10-character leftmost match. -/
theorem c2_fnsku_extraction (env : Nat → AttemptEnv) (fuel idx : Nat)
    (s : AState) (id : Nat) (p : Params)
    (hmiss : missingListingParams (some p) = false)
    (hwall : (env idx).loginWall = false)
    (hpre : (env idx).preStepsError = none) :
    (∀ f, (env idx).fnskuText.bind fnskuMatch = some f →
      (env idx).postStepsError = none →
      (runAutomationA env (fuel + 1) idx s id { type := ReqType.createListing, params := some p }).2
        = { fnsku := some f }) ∧
    ((env idx).fnskuText.bind fnskuMatch = none →
      (runAutomationA env (fuel + 1) idx s id { type := ReqType.createListing, params := some p }).2
        = { error := some "Could not extract valid FNSKU from page" }) ∧
    (∀ m, (env idx).postStepsError = some m →
      ∀ f0, (env idx).fnskuText.bind fnskuMatch = some f0 →
      (runAutomationA env (fuel + 1) idx s id { type := ReqType.createListing, params := some p }).2
        = { error := some m }) ∧
    (∀ f, ((runAutomationA env (fuel + 1) idx s id { type := ReqType.createListing, params := some p }).2).fnsku = some f →
      (env idx).fnskuText.bind fnskuMatch = some f ∧ f.length = 10) := by
  refine ⟨?_, ?_, ?_, ?_⟩
  · intro f hm hpost
    simp [runAutomationA, runAutomationBody, handleCreateListingA, hmiss, hclTry,
      hwall, hm, hpre, hpost]
  · intro hm
    simp [runAutomationA, runAutomationBody, handleCreateListingA, hmiss, hclTry,
      hwall, hm, hpre]
  · intro m hpost f0 hm
    simp [runAutomationA, runAutomationBody, handleCreateListingA, hmiss, hclTry,
      hwall, hm, hpre, hpost]
  · intro f hf
    cases hm : (env idx).fnskuText.bind fnskuMatch with
    | none =>
        simp [runAutomationA, runAutomationBody, handleCreateListingA, hmiss,
          hclTry, hwall, hm, hpre] at hf
    | some f0 =>
        cases hpost : (env idx).postStepsError with
        | some m =>
            simp [runAutomationA, runAutomationBody, handleCreateListingA, hmiss,
              hclTry, hwall, hm, hpre, hpost] at hf
        | none =>
            simp [runAutomationA, runAutomationBody, handleCreateListingA, hmiss,
              hclTry, hwall, hm, hpre, hpost] at hf
            subst hf
            refine ⟨rfl, ?_⟩
            cases ht : (env idx).fnskuText with
            | none =>
                rw [ht] at hm
                exact Option.noConfusion hm
            | some t =>
                rw [ht] at hm
                exact fnskuMatch_length hm

/-- C2 witness for the amended theorem: the example page text yields exactly
its leftmost match as the session result. -/
theorem c2_fnsku_extraction_witness :
    (runAutomationA (fun _ => ({ fnskuText := some "Your FNSKU is X0ABCD1234" } : AttemptEnv)) 1 0 {} 0 { type := ReqType.createListing, params := some { sku := some "TEST_1", asin := some "0140268308", price := some 999 } }).2
      = { fnsku := some "X0ABCD1234" } := by
  exact (c2_fnsku_extraction (fun _ => ({ fnskuText := some "Your FNSKU is X0ABCD1234" } : AttemptEnv)) 0 0 {} 0 { sku := some "TEST_1", asin := some "0140268308", price := some 999 } (by decide) rfl rfl).1 "X0ABCD1234" (by decide) rfl

theorem noSuccessAt_storeTrigErrR_self (t : Nat) (l : List (Nat × AResult))
    (msg : String) : NoSuccessAt t (storeTrigErrR (some t) l msg) := by
  intro r hr
  unfold storeTrigErrR at hr
  have h2 := lookupKV_cleanup _ _ _ hr
  rw [lookupKV_setKV_self] at h2
  obtain rfl : ({ error := some msg } : AResult) = r := Option.some.inj h2
  rfl

theorem safeId_cancel {s : BState} {t : Nat}
    (hlt : t < s.nextId) (hns : t ∉ sessionIds s) :
    SafeId t { s with
      completedR := storeTrigErrR (some t) s.completedR "Authentication cancelled",
      awaiting := false, modalsOpen := s.modalsOpen - 1,
      pending := [], flag := false, cycleTrigger := none } := by
  refine ⟨hlt, ?_, ?_, ?_, ?_⟩
  · exact hns
  · simp [pendingOrigIds]
  · simp
  · exact noSuccessAt_storeTrigErrR_self t s.completedR "Authentication cancelled"

/-- C5 counterexample: cancelling the re-authentication modal does NOT reject
the original `startAutomation` promise — `handleCreateListing` rethrows the
cancellation, but `runAutomation` catches it, records it as the session's
error result and returns normally, so `startAutomation` resolves with the
generated session id.  The queue and the flag are indeed cleared and the
stored result is the cancellation error. -/
theorem c5_counterexample :
    (startAutomationA (fun _ => ({ loginWall := true, modalResponse := ModalResponse.cancel } : AttemptEnv)) 1 0 {} { type := ReqType.createListing, params := some { sku := some "TEST_1", asin := some "0140268308", price := some 999 } }).2
      = StartOutcome.ok (StartRet.sessionId 0) ∧
    (startAutomationA (fun _ => ({ loginWall := true, modalResponse := ModalResponse.cancel } : AttemptEnv)) 1 0 {} { type := ReqType.createListing, params := some { sku := some "TEST_1", asin := some "0140268308", price := some 999 } }).1.pending = [] ∧
    (startAutomationA (fun _ => ({ loginWall := true, modalResponse := ModalResponse.cancel } : AttemptEnv)) 1 0 {} { type := ReqType.createListing, params := some { sku := some "TEST_1", asin := some "0140268308", price := some 999 } }).1.isReauthenticating = false ∧
    lookupKV (startAutomationA (fun _ => ({ loginWall := true, modalResponse := ModalResponse.cancel } : AttemptEnv)) 1 0 {} { type := ReqType.createListing, params := some { sku := some "TEST_1", asin := some "0140268308", price := some 999 } }).1.completedResults 0
      = some { error := some "Authentication cancelled" } := by
  refine ⟨rfl, rfl, rfl, rfl⟩

/-- C5 as amended: when the user cancels the re-authentication modal, the
cancellation error `'Authentication cancelled'` is recorded as the cancelled
session's result (it is caught by `runAutomation`, so the original
`startAutomation` promise resolves with the session id rather than
rejecting), the pending queue and the reauth flag are cleared, and
`getAutomationResult` for the cancelled session's id never subsequently
returns a success (fnsku-bearing) payload: in Model B, after the cancel step
of any reachable mid-cycle state, every event sequence leaves the trigger's
cached result success-free. -/
theorem c5_cancel_clears_state (env : Nat → AttemptEnv) (fuel idx : Nat)
    (s : AState) (p : Params) (bs bs2 : BState) (t : Nat)
    (hflag : s.isReauthenticating = false)
    (hmiss : missingListingParams (some p) = false)
    (hlaunch : (env idx).launchError = none)
    (hwall : (env idx).loginWall = true)
    (hcancel : (env idx).modalResponse = ModalResponse.cancel)
    (hlen : s.completedResults.length < MAX_COMPLETED_RESULTS - 1)
    (hreach : ReachableB bs)
    (htrig : bs.cycleTrigger = some t)
    (hstep : stepB bs BEvent.modalCancel = some bs2) :
    (startAutomationA env (fuel + 1) idx s { type := ReqType.createListing, params := some p }).2
      = StartOutcome.ok (StartRet.sessionId s.nextId) ∧
    lookupKV (startAutomationA env (fuel + 1) idx s { type := ReqType.createListing, params := some p }).1.completedResults s.nextId
      = some { error := some "Authentication cancelled" } ∧
    (startAutomationA env (fuel + 1) idx s { type := ReqType.createListing, params := some p }).1.pending = [] ∧
    (startAutomationA env (fuel + 1) idx s { type := ReqType.createListing, params := some p }).1.isReauthenticating = false ∧
    bs2.pending = [] ∧ bs2.flag = false ∧
    (∀ es r, lookupKV (bRun bs2 es).completedR t = some r → r.fnsku = none) := by
  have hcl : ∀ v : AResult,
      cleanupCompletedResults (setKV s.completedResults s.nextId v)
        = setKV s.completedResults s.nextId v := by
    intro v
    apply cleanup_of_short
    have := setKV_length s.completedResults s.nextId v
    omega
  have hA : (startAutomationA env (fuel + 1) idx s { type := ReqType.createListing, params := some p }).2
      = StartOutcome.ok (StartRet.sessionId s.nextId) ∧
    lookupKV (startAutomationA env (fuel + 1) idx s { type := ReqType.createListing, params := some p }).1.completedResults s.nextId
      = some { error := some "Authentication cancelled" } ∧
    (startAutomationA env (fuel + 1) idx s { type := ReqType.createListing, params := some p }).1.pending = [] ∧
    (startAutomationA env (fuel + 1) idx s { type := ReqType.createListing, params := some p }).1.isReauthenticating = false := by
    simp [startAutomationA, hflag, createAutomationA, hlaunch, runAutomationA,
      runAutomationBody, handleCreateListingA, hmiss, hclTry, hwall,
      handleLoginRequiredA, hcancel, cleanupAutomationA, pauseOthersA,
      lookupKV_mapVals, lookupKV_setKV_self, hcl, lookupKV_removeKV_self]
  obtain ⟨-, -, -, -, -, -, h7⟩ := invB_reachable hreach
  obtain ⟨hns, hlt⟩ := h7 t htrig
  simp only [stepB] at hstep
  cases haw : bs.awaiting with
  | false => simp [haw] at hstep
  | true =>
      rw [if_pos haw] at hstep
      obtain rfl :
          ({ bs with
             completedR := storeTrigErrR bs.cycleTrigger bs.completedR "Authentication cancelled",
             awaiting := false, modalsOpen := bs.modalsOpen - 1,
             pending := [], flag := false, cycleTrigger := none } : BState) = bs2 :=
        Option.some.inj hstep
      refine ⟨hA.1, hA.2.1, hA.2.2.1, hA.2.2.2, rfl, rfl, ?_⟩
      intro es r hr
      rw [htrig] at hr
      exact (safeId_run (safeId_cancel hlt hns) es).2.2.2.2 r hr

/-- C5 witness for the amended theorem: the concrete cancel run of the
counterexample together with a concrete reachable mid-cycle Model B state. -/
theorem c5_cancel_clears_state_witness :
    (startAutomationA (fun _ => ({ loginWall := true, modalResponse := ModalResponse.cancel } : AttemptEnv)) 1 0 {} { type := ReqType.createListing, params := some { sku := some "S1", asin := some "A1", price := some 500 } }).2
      = StartOutcome.ok (StartRet.sessionId 0) ∧
    lookupKV (startAutomationA (fun _ => ({ loginWall := true, modalResponse := ModalResponse.cancel } : AttemptEnv)) 1 0 {} { type := ReqType.createListing, params := some { sku := some "S1", asin := some "A1", price := some 500 } }).1.completedResults 0
      = some { error := some "Authentication cancelled" } ∧
    (startAutomationA (fun _ => ({ loginWall := true, modalResponse := ModalResponse.cancel } : AttemptEnv)) 1 0 {} { type := ReqType.createListing, params := some { sku := some "S1", asin := some "A1", price := some 500 } }).1.pending = [] ∧
    (startAutomationA (fun _ => ({ loginWall := true, modalResponse := ModalResponse.cancel } : AttemptEnv)) 1 0 {} { type := ReqType.createListing, params := some { sku := some "S1", asin := some "A1", price := some 500 } }).1.isReauthenticating = false ∧
    (bRun {} [BEvent.startAuto { sku := some "S1", asin := some "A1", price := some 500 }, BEvent.loginDetected 0, BEvent.modalCancel]).pending = [] ∧
    (bRun {} [BEvent.startAuto { sku := some "S1", asin := some "A1", price := some 500 }, BEvent.loginDetected 0, BEvent.modalCancel]).flag = false ∧
    (∀ es r, lookupKV (bRun (bRun {} [BEvent.startAuto { sku := some "S1", asin := some "A1", price := some 500 }, BEvent.loginDetected 0, BEvent.modalCancel]) es).completedR 0 = some r → r.fnsku = none) := by
  exact c5_cancel_clears_state
    (fun _ => ({ loginWall := true, modalResponse := ModalResponse.cancel } : AttemptEnv))
    0 0 {} { sku := some "S1", asin := some "A1", price := some 500 }
    (bRun {} [BEvent.startAuto { sku := some "S1", asin := some "A1", price := some 500 }, BEvent.loginDetected 0])
    (bRun {} [BEvent.startAuto { sku := some "S1", asin := some "A1", price := some 500 }, BEvent.loginDetected 0, BEvent.modalCancel])
    0 rfl (by decide) rfl rfl rfl (by decide)
    (reachable_bRun ReachableB.init _) rfl rfl

end SmrtSellerSpec
